import Mathlib

/-!
Shallow embedding of the `workflowStore` (zustand store) and the
history-page hydration logic of the deep-research-tool client, together
with proofs of the specification's claims about them.

Modelling conventions:
* TS string-literal unions become Lean inductives (`GStatus`, `IStatus`, …);
  free-form strings stay `String`.
* Optional TS fields (`f?: T`) become `Option T`; a field that may also be
  `null` and where the code distinguishes `null` from absent becomes
  `Option (Option T)`.
* `Partial<T>` event payloads become `*Patch` structures whose fields are
  `Option`s; `none` means the field is absent from the event object, so a
  JS object-spread `{...prev, ...patch}` becomes a per-field
  `patch.f.getD prev.f` (or `.or` for optional stored fields).
* JS `a || b` on strings is falsy on `""`, modelled by `jsOrStr`;
  `a || b` on numbers is falsy on `0`, modelled by `jsOrNat`.
* `new Date().toISOString()` is modelled by an explicit `now : String`
  parameter; `new Date(ts).getTime()` comparisons on ISO timestamps are
  modelled by storing conversation-message timestamps as `Int`
  milliseconds (the value `getTime` returns).
* JS objects used as keyed maps (`Record<K, V>`) become functions
  `K → Option V`; `Record<string, any>` metadata payloads are abstracted
  to `Option String`.
* `Array.prototype.sort` with a numeric comparator is a stable sort and is
  modelled by `List.insertionSort` (also stable) on the comparator's
  relation.
-/

namespace DeepResearch

/-- JS `a || b` for a possibly-absent string (`""` and `undefined` are falsy). -/
def jsOrStr (a : Option String) (b : String) : String :=
  match a with
  | some s => if s = "" then b else s
  | none => b

/-- JS `a || b` for a possibly-absent number (`0` and `undefined` are falsy). -/
def jsOrNat (a : Option Nat) (b : Nat) : Nat :=
  match a with
  | some n => if n = 0 then b else n
  | none => b

/-- Status union of the `LiveGoal`/`LivePlanStep`/`LiveInsight`/`LiveAction`/
`LiveReportSection` entity family: `'pending' | 'streaming' | 'ready' | 'error'`. -/
inductive GStatus where
  | pending | streaming | ready | error
deriving DecidableEq

/-- `ScrapingItem` status: `'pending' | 'in-progress' | 'completed' | 'failed'`. -/
inductive IStatus where
  | pending | inProgress | completed | failed
deriving DecidableEq

/-- Stream buffer status: `'active' | 'completed' | 'error'`. -/
inductive BStatus where
  | active | completed | error
deriving DecidableEq

/-- Conversation message status: `'queued' | 'in_progress' | 'completed' | 'error'`. -/
inductive MStatus where
  | queued | inProgress | completed | error
deriving DecidableEq

/-- Final report status: `'generating' | 'ready' | 'error'`. -/
inductive RStatus where
  | generating | ready | error
deriving DecidableEq

/-- `ScrapingItem` (workflowStore). -/
structure ScrapingItem where
  link_id : Option String
  url : String
  status : IStatus
  error : Option String
  current_stage : Option String
  stage_progress : Option Rat
  overall_progress : Option Rat
  status_message : Option String
  started_at : Option String
  completed_at : Option String
  source : Option String
  word_count : Option Nat
  bytes_downloaded : Option Nat
  total_bytes : Option Nat
deriving DecidableEq

/-- `Partial<ScrapingItem>` as passed to `updateScrapingItemProgress`. -/
structure ScrapingItemPatch where
  link_id : Option String
  url : Option String
  status : Option IStatus
  error : Option String
  current_stage : Option String
  stage_progress : Option Rat
  overall_progress : Option Rat
  status_message : Option String
  started_at : Option String
  completed_at : Option String
  source : Option String
  word_count : Option Nat
  bytes_downloaded : Option Nat
  total_bytes : Option Nat
deriving DecidableEq

/-- The empty patch (all fields absent), a convenience for concrete tests. -/
def ScrapingItemPatch.empty : ScrapingItemPatch :=
  ⟨none, none, none, none, none, none, none, none, none, none, none, none, none, none⟩

/-- `scrapingStatus` slice of the workflow state. -/
@[ext]
structure ScrapingStatus where
  total : Int
  expectedTotal : Int
  completed : Int
  failed : Int
  inProgress : Int
  items : List ScrapingItem
  completionRate : Rat
  is100Percent : Bool
  canProceedToResearch : Bool
deriving DecidableEq

/-- `Partial<scrapingStatus>` as passed to `updateScrapingStatus`.
`expectedTotal` is `Option (Option Int)` because the code explicitly
distinguishes an absent field (`undefined`) from an explicit `null`. -/
structure ScrapingStatusPatch where
  total : Option Int
  expectedTotal : Option (Option Int)
  completed : Option Int
  failed : Option Int
  inProgress : Option Int
  items : Option (List ScrapingItem)
  completionRate : Option Rat
  is100Percent : Option Bool
  canProceedToResearch : Option Bool
deriving DecidableEq

def ScrapingStatusPatch.empty : ScrapingStatusPatch :=
  ⟨none, none, none, none, none, none, none, none, none⟩

/-- One key claim inside `SessionStep.findings.points_of_interest`. -/
structure KeyClaim where
  claim : String
  supporting_evidence : String
deriving DecidableEq

/-- One piece of notable evidence inside `SessionStep.findings`. -/
structure NotableEvidence where
  evidence_type : String
  description : String
deriving DecidableEq

structure PointsOfInterest where
  key_claims : List KeyClaim
  notable_evidence : List NotableEvidence
deriving DecidableEq

structure FiveWhysEntry where
  level : Nat
  question : String
  answer : String
deriving DecidableEq

structure AnalysisDetails where
  five_whys : List FiveWhysEntry
  assumptions : List String
  uncertainties : List String
deriving DecidableEq

/-- `SessionStep.findings`. -/
structure Findings where
  summary : String
  article : Option String
  points_of_interest : PointsOfInterest
  analysis_details : AnalysisDetails
deriving DecidableEq

/-- `SessionStep` (a finished Phase-3 step). `confidence: number` is modelled
as `Rat` (the claims never compute with it, it is only carried). -/
structure SessionStep where
  step_id : Nat
  findings : Findings
  insights : String
  confidence : Rat
  timestamp : String
deriving DecidableEq

/-- Default findings payload, used to build concrete test steps. -/
def Findings.empty : Findings :=
  { summary := "", article := none,
    points_of_interest := { key_claims := [], notable_evidence := [] },
    analysis_details := { five_whys := [], assumptions := [], uncertainties := [] } }

/-- A concrete `SessionStep` with the given id, insights and timestamp. -/
def mkStep (i : Nat) (ins : String) (ts : String) : SessionStep :=
  { step_id := i, findings := Findings.empty, insights := ins, confidence := 0, timestamp := ts }

/-- `StreamState` (the flattened "foreground stream" view). -/
structure StreamState where
  isStreaming : Bool
  phase : Option String
  metadata : Option String
  startedAt : Option String
  lastTokenAt : Option String
  endedAt : Option String
deriving DecidableEq

/-- `StreamBufferState`. -/
structure StreamBufferState where
  id : String
  raw : String
  status : BStatus
  tokenCount : Nat
  error : Option String
  pinned : Option Bool
  isStreaming : Bool
  phase : Option String
  metadata : Option String
  startedAt : Option String
  lastTokenAt : Option String
  endedAt : Option String
deriving DecidableEq

/-- `StreamCollectionState`; `buffers : Record<string, StreamBufferState>`
is modelled as a function map. -/
@[ext]
structure StreamCollectionState where
  activeStreamId : Option String
  buffers : String → Option StreamBufferState
  order : List String
  pinned : List String

/-- `LiveGoal` as stored in `liveGoals`. -/
structure LiveGoal where
  id : Nat
  goal_text : Option String
  rationale : Option String
  uses : Option (List String)
  sources : Option (List String)
  status : GStatus
  updatedAt : Option String
deriving DecidableEq

/-- `Partial<LiveGoal> & { id: number }`, the `goal.update` event payload. -/
structure LiveGoalPatch where
  id : Nat
  goal_text : Option String
  rationale : Option String
  uses : Option (List String)
  sources : Option (List String)
  status : Option GStatus
  updatedAt : Option String
deriving DecidableEq

/-- `LivePlanStep` as stored in `livePlanSteps`. -/
structure LivePlanStep where
  step_id : Nat
  goal : Option String
  required_data : Option String
  chunk_strategy : Option String
  notes : Option String
  status : GStatus
  updatedAt : Option String
deriving DecidableEq

structure LiveInsight where
  id : String
  title : Option String
  summary : Option String
  sources : Option (List String)
  status : GStatus
  updatedAt : Option String
deriving DecidableEq

structure LiveAction where
  id : String
  description : Option String
  result : Option String
  status : GStatus
  updatedAt : Option String
deriving DecidableEq

structure LiveReportSection where
  id : String
  heading : Option String
  content : Option String
  status : GStatus
  updatedAt : Option String
deriving DecidableEq

/-- An element of the confirmed `goals` array
(`{id, goal_text, uses?}` in the store's type). At runtime
`updateLiveGoal` spreads whole `Partial<LiveGoal>` payloads into these
objects, so the model carries the full merged field set; fields the TS
type does not declare start out `none`. -/
structure GoalEntry where
  id : Nat
  goal_text : String
  uses : Option (List String)
  sources : Option (List String)
  rationale : Option String
  status : Option GStatus
  updatedAt : Option String
deriving DecidableEq

/-- An element of the confirmed `plan` array, with the same runtime-merged
field convention as `GoalEntry`. -/
structure PlanEntry where
  step_id : Nat
  goal : String
  required_data : Option String
  chunk_strategy : Option String
  notes : Option String
  status : Option GStatus
  updatedAt : Option String
deriving DecidableEq

/-- `ConversationMessage`. `timestamp` is the `Int` millisecond value that
`new Date(m.timestamp).getTime()` yields for the stored ISO string. -/
structure ConversationMessage where
  id : String
  role : String
  content : String
  status : MStatus
  timestamp : Int
  metadata : Option String
deriving DecidableEq

structure SynthesizedGoal where
  comprehensive_topic : String
  component_questions : List String
  unifying_theme : Option String
deriving DecidableEq

structure UserInputRequired where
  type : String
  prompt_id : Option String
  prompt : Option String
  data : Option String
deriving DecidableEq

structure SummarizationProgress where
  currentItem : Nat
  totalItems : Nat
  linkId : String
  stage : String
  progress : Rat
  message : String
deriving DecidableEq

/-- `researchAgentStatus` slice of the workflow state. -/
@[ext]
structure ResearchAgentStatus where
  streams : StreamCollectionState
  phase : String
  currentAction : Option String
  waitingForUser : Bool
  userInputRequired : Option UserInputRequired
  streamBuffer : String
  streamingState : StreamState
  liveGoals : Nat → Option LiveGoal
  goalOrder : List Nat
  goals : Option (List GoalEntry)
  livePlanSteps : Nat → Option LivePlanStep
  planOrder : List Nat
  plan : Option (List PlanEntry)
  liveInsights : String → Option LiveInsight
  liveActions : String → Option LiveAction
  liveReportSections : String → Option LiveReportSection
  synthesizedGoal : Option SynthesizedGoal
  summarizationProgress : Option SummarizationProgress
  conversationMessages : List ConversationMessage

/-- `Partial<researchAgentStatus>` as passed to `updateResearchAgentStatus`.
`currentAction` and `userInputRequired` distinguish "absent" from an
explicit `null`, hence the nested `Option`s. -/
structure ResearchAgentStatusPatch where
  streams : Option StreamCollectionState
  phase : Option String
  currentAction : Option (Option String)
  waitingForUser : Option Bool
  userInputRequired : Option (Option UserInputRequired)
  streamBuffer : Option String
  streamingState : Option StreamState
  liveGoals : Option (Nat → Option LiveGoal)
  goalOrder : Option (List Nat)
  goals : Option (Option (List GoalEntry))
  livePlanSteps : Option (Nat → Option LivePlanStep)
  planOrder : Option (List Nat)
  plan : Option (Option (List PlanEntry))
  liveInsights : Option (String → Option LiveInsight)
  liveActions : Option (String → Option LiveAction)
  liveReportSections : Option (String → Option LiveReportSection)
  synthesizedGoal : Option (Option SynthesizedGoal)
  summarizationProgress : Option (Option SummarizationProgress)
  conversationMessages : Option (List ConversationMessage)

def ResearchAgentStatusPatch.empty : ResearchAgentStatusPatch :=
  ⟨none, none, none, none, none, none, none, none, none, none,
   none, none, none, none, none, none, none, none, none⟩

structure RerunState where
  inProgress : Bool
  phase : Option String
  phases : List String
  lastError : Option String
deriving DecidableEq

structure StepRerunState where
  inProgress : Bool
  stepId : Option Nat
  regenerateReport : Bool
  lastError : Option String
deriving DecidableEq

/-- `cancellationInfo`; `state_at_cancellation: any` is abstracted to a string. -/
structure CancellationInfo where
  cancelled_at : Option String
  reason : Option String
  state_at_cancellation : Option String
deriving DecidableEq

structure FinalReport where
  content : String
  generatedAt : String
  status : RStatus
deriving DecidableEq

structure ErrorEntry where
  phase : String
  message : String
  timestamp : String
deriving DecidableEq

/-- The whole `WorkflowState` data record (actions are modelled as separate
functions). `currentPhase` is a `String` because `setCurrentPhase` is called
with `resolvedPhase as any` in `HistoryPage`, so arbitrary strings can reach
it at runtime. -/
@[ext]
structure WorkflowState where
  currentPhase : String
  batchId : Option String
  workflowId : Option String
  workflowStarted : Bool
  sessionId : Option String
  reportStale : Bool
  rerunState : RerunState
  stepRerunState : StepRerunState
  overallProgress : Rat
  currentStep : Option String
  stepProgress : Rat
  scrapingStatus : ScrapingStatus
  cancelled : Bool
  cancellationInfo : Option CancellationInfo
  researchAgentStatus : ResearchAgentStatus
  phase3Steps : List SessionStep
  currentStepId : Option Nat
  finalReport : Option FinalReport
  errors : List ErrorEntry

/-- `initialState` of the store. -/
def initialState : WorkflowState :=
  { currentPhase := "input"
    batchId := none
    workflowId := none
    workflowStarted := false
    sessionId := none
    reportStale := false
    rerunState := { inProgress := false, phase := none, phases := [], lastError := none }
    stepRerunState :=
      { inProgress := false, stepId := none, regenerateReport := true, lastError := none }
    overallProgress := 0
    currentStep := none
    stepProgress := 0
    scrapingStatus :=
      { total := 0, expectedTotal := 0, completed := 0, failed := 0, inProgress := 0,
        items := [], completionRate := 0, is100Percent := false,
        canProceedToResearch := false }
    cancelled := false
    cancellationInfo := none
    researchAgentStatus :=
      { streams := { activeStreamId := none, buffers := fun _ => none, order := [], pinned := [] }
        phase := "0.5"
        currentAction := none
        waitingForUser := false
        userInputRequired := none
        streamBuffer := ""
        streamingState :=
          { isStreaming := false, phase := none, metadata := none,
            startedAt := none, lastTokenAt := none, endedAt := none }
        liveGoals := fun _ => none
        goalOrder := []
        goals := none
        livePlanSteps := fun _ => none
        planOrder := []
        plan := none
        liveInsights := fun _ => none
        liveActions := fun _ => none
        liveReportSections := fun _ => none
        synthesizedGoal := none
        summarizationProgress := none
        conversationMessages := [] }
    phase3Steps := []
    currentStepId := none
    finalReport := none
    errors := [] }

/-! ### Store actions -/

/-- `setBatchId`: keep everything when the batch id is unchanged, otherwise
reset the whole workflow state (the reset object is spelled out in the
source and is mirrored literally here). -/
def setBatchId (st : WorkflowState) (batchId : String) : WorkflowState :=
  if st.batchId = some batchId then
    { st with batchId := some batchId, workflowStarted := st.workflowStarted }
  else
    { batchId := some batchId
      workflowId := none
      workflowStarted := false
      currentPhase := "input"
      sessionId := none
      reportStale := false
      rerunState := { inProgress := false, phase := none, phases := [], lastError := none }
      stepRerunState :=
        { inProgress := false, stepId := none, regenerateReport := true, lastError := none }
      overallProgress := 0
      currentStep := none
      stepProgress := 0
      scrapingStatus :=
        { total := 0, expectedTotal := 0, completed := 0, failed := 0, inProgress := 0,
          items := [], completionRate := 0, is100Percent := false,
          canProceedToResearch := false }
      cancelled := false
      cancellationInfo := none
      researchAgentStatus :=
        { streams :=
            { activeStreamId := none, buffers := fun _ => none, order := [], pinned := [] }
          phase := "0.5"
          currentAction := none
          waitingForUser := false
          userInputRequired := none
          streamBuffer := ""
          streamingState :=
            { isStreaming := false, phase := none, metadata := none,
              startedAt := none, lastTokenAt := none, endedAt := none }
          liveGoals := fun _ => none
          goalOrder := []
          goals := none
          livePlanSteps := fun _ => none
          planOrder := []
          plan := none
          liveInsights := fun _ => none
          liveActions := fun _ => none
          liveReportSections := fun _ => none
          synthesizedGoal := none
          summarizationProgress := none
          conversationMessages := [] }
      phase3Steps := []
      currentStepId := none
      finalReport := none
      errors := [] }

def setWorkflowStarted (st : WorkflowState) (started : Bool) : WorkflowState :=
  { st with workflowStarted := started }

def setCurrentPhase (st : WorkflowState) (phase : String) : WorkflowState :=
  { st with currentPhase := phase }

def setSessionId (st : WorkflowState) (sessionId : Option String) : WorkflowState :=
  { st with sessionId := sessionId }

/-- `updateScrapingStatus`: merge the patch but drop `expectedTotal` from it
whenever the incoming value is `0` or `null` (both `delete` branches of
the source drop the field). -/
def updateScrapingStatus (st : WorkflowState) (patch : ScrapingStatusPatch) : WorkflowState :=
  let keptExpected : Option Int :=
    match patch.expectedTotal with
    | some (some n) => if n = 0 then none else some n
    | some none => none
    | none => none
  { st with scrapingStatus :=
    { total := patch.total.getD st.scrapingStatus.total
      expectedTotal := keptExpected.getD st.scrapingStatus.expectedTotal
      completed := patch.completed.getD st.scrapingStatus.completed
      failed := patch.failed.getD st.scrapingStatus.failed
      inProgress := patch.inProgress.getD st.scrapingStatus.inProgress
      items := patch.items.getD st.scrapingStatus.items
      completionRate := patch.completionRate.getD st.scrapingStatus.completionRate
      is100Percent := patch.is100Percent.getD st.scrapingStatus.is100Percent
      canProceedToResearch :=
        patch.canProceedToResearch.getD st.scrapingStatus.canProceedToResearch } }

/-- `updateScrapingItem`: set status/error on the item matched by url, then
recompute the three counters from the item list (note: `inProgress` counts
only `'in-progress'` here). The `error` key is written unconditionally in
the source object literal, so an absent `error` argument clears the field. -/
def updateScrapingItem (st : WorkflowState) (url : String) (status : IStatus)
    (error : Option String) : WorkflowState :=
  let items := st.scrapingStatus.items.map (fun item =>
    if item.url == url then { item with status := status, error := error } else item)
  { st with scrapingStatus :=
    { st.scrapingStatus with
      items := items
      completed := ((items.filter (fun i => i.status == IStatus.completed)).length : Int)
      failed := ((items.filter (fun i => i.status == IStatus.failed)).length : Int)
      inProgress := ((items.filter (fun i => i.status == IStatus.inProgress)).length : Int) } }

/-- JS truthiness of a `string | undefined` value (`""` and `undefined` are falsy). -/
def strTruthy (o : Option String) : Bool :=
  match o with
  | some s => !(s == "")
  | none => false

/-- `{ ...item, ...progress, status: progress.status || item.status || 'in-progress' }`.
The trailing `|| 'in-progress'` is unreachable because the stored `status`
field is never absent. -/
def mergeItemProgress (item : ScrapingItem) (p : ScrapingItemPatch) : ScrapingItem :=
  { link_id := p.link_id.or item.link_id
    url := p.url.getD item.url
    status := p.status.getD item.status
    error := p.error.or item.error
    current_stage := p.current_stage.or item.current_stage
    stage_progress := p.stage_progress.or item.stage_progress
    overall_progress := p.overall_progress.or item.overall_progress
    status_message := p.status_message.or item.status_message
    started_at := p.started_at.or item.started_at
    completed_at := p.completed_at.or item.completed_at
    source := p.source.or item.source
    word_count := p.word_count.or item.word_count
    bytes_downloaded := p.bytes_downloaded.or item.bytes_downloaded
    total_bytes := p.total_bytes.or item.total_bytes }

/-- The item pushed by `updateScrapingItemProgress` when no existing item
matches: `{ link_id, url, status: progress.status || 'in-progress', ...progress }`
(the trailing spread overrides the three explicit keys when present). -/
def newProgressItem (link_id : Option String) (url : String)
    (p : ScrapingItemPatch) : ScrapingItem :=
  { link_id := p.link_id.or link_id
    url := p.url.getD url
    status := p.status.getD IStatus.inProgress
    error := p.error
    current_stage := p.current_stage
    stage_progress := p.stage_progress
    overall_progress := p.overall_progress
    status_message := p.status_message
    started_at := p.started_at
    completed_at := p.completed_at
    source := p.source
    word_count := p.word_count
    bytes_downloaded := p.bytes_downloaded
    total_bytes := p.total_bytes }

/-- The match test of `updateScrapingItemProgress`:
`link_id ? item.link_id === link_id : item.url === url`. -/
def progressHit (link_id : Option String) (url : String) (item : ScrapingItem) : Bool :=
  if strTruthy link_id then item.link_id == link_id else item.url == url

/-- The item-list part of `updateScrapingItemProgress`: merge the patch into
every matching item and append a fresh item when none matches. -/
def progressItems (link_id : Option String) (url : String) (p : ScrapingItemPatch)
    (items : List ScrapingItem) : List ScrapingItem :=
  let mapped := items.map (fun item =>
    if progressHit link_id url item then mergeItemProgress item p else item)
  let found := mapped.any (fun item =>
    (strTruthy link_id && item.link_id == link_id) ||
    (!(strTruthy link_id) && item.url == url))
  if found then mapped else mapped ++ [newProgressItem link_id url p]

/-- `updateScrapingItemProgress`: merge the patch into every matching item
(match by `link_id` when truthy, else by `url`), append a fresh item when
none matches, then recompute the counters (note: `inProgress` counts
`'in-progress'` AND `'pending'` here, unlike `updateScrapingItem`). -/
def updateScrapingItemProgress (st : WorkflowState) (link_id : Option String)
    (url : String) (p : ScrapingItemPatch) : WorkflowState :=
  let items := progressItems link_id url p st.scrapingStatus.items
  { st with scrapingStatus :=
    { st.scrapingStatus with
      items := items
      completed := ((items.filter (fun i => i.status == IStatus.completed)).length : Int)
      failed := ((items.filter (fun i => i.status == IStatus.failed)).length : Int)
      inProgress := ((items.filter (fun i =>
        i.status == IStatus.inProgress || i.status == IStatus.pending)).length : Int) } }

/-- `updateResearchAgentStatus`: shallow field-wise merge of the patch. -/
def updateResearchAgentStatus (st : WorkflowState)
    (p : ResearchAgentStatusPatch) : WorkflowState :=
  let ra := st.researchAgentStatus
  { st with researchAgentStatus :=
    { streams := p.streams.getD ra.streams
      phase := p.phase.getD ra.phase
      currentAction := p.currentAction.getD ra.currentAction
      waitingForUser := p.waitingForUser.getD ra.waitingForUser
      userInputRequired := p.userInputRequired.getD ra.userInputRequired
      streamBuffer := p.streamBuffer.getD ra.streamBuffer
      streamingState := p.streamingState.getD ra.streamingState
      liveGoals := p.liveGoals.getD ra.liveGoals
      goalOrder := p.goalOrder.getD ra.goalOrder
      goals := p.goals.getD ra.goals
      livePlanSteps := p.livePlanSteps.getD ra.livePlanSteps
      planOrder := p.planOrder.getD ra.planOrder
      plan := p.plan.getD ra.plan
      liveInsights := p.liveInsights.getD ra.liveInsights
      liveActions := p.liveActions.getD ra.liveActions
      liveReportSections := p.liveReportSections.getD ra.liveReportSections
      synthesizedGoal := p.synthesizedGoal.getD ra.synthesizedGoal
      summarizationProgress := p.summarizationProgress.getD ra.summarizationProgress
      conversationMessages := p.conversationMessages.getD ra.conversationMessages } }

/-- One iteration of the `setGoals` forEach: push the id onto the order and
upsert the merged live goal (`{...existing, ...goal, id, status: 'ready',
updatedAt: timestamp}`). -/
def setGoalsStep (now : String) (acc : (Nat → Option LiveGoal) × List Nat)
    (g : GoalEntry) : (Nat → Option LiveGoal) × List Nat :=
  let id := g.id
  let existing := (acc.1 id).getD
    { id := id, goal_text := none, rationale := none, uses := none, sources := none,
      status := GStatus.ready, updatedAt := none }
  let merged : LiveGoal :=
    { id := id
      goal_text := some g.goal_text
      rationale := g.rationale.or existing.rationale
      uses := g.uses.or existing.uses
      sources := g.sources.or existing.sources
      status := GStatus.ready
      updatedAt := some now }
  (fun k => if k = id then some merged else acc.1 k, acc.2 ++ [id])

/-- `setGoals`. -/
def setGoals (st : WorkflowState) (goals : Option (List GoalEntry))
    (now : String) : WorkflowState :=
  let ra := st.researchAgentStatus
  let acc := (goals.getD []).foldl (setGoalsStep now) (ra.liveGoals, [])
  { st with researchAgentStatus :=
    { ra with
      goals := goals
      liveGoals := acc.1
      goalOrder := if acc.2.length ≠ 0 then acc.2 else ra.goalOrder } }

/-- One iteration of the `setPlan` forEach. -/
def setPlanStep (now : String) (acc : (Nat → Option LivePlanStep) × List Nat)
    (p : PlanEntry) : (Nat → Option LivePlanStep) × List Nat :=
  let id := p.step_id
  let existing := (acc.1 id).getD
    { step_id := id, goal := none, required_data := none, chunk_strategy := none,
      notes := none, status := GStatus.ready, updatedAt := none }
  let merged : LivePlanStep :=
    { step_id := id
      goal := some p.goal
      required_data := p.required_data.or existing.required_data
      chunk_strategy := p.chunk_strategy.or existing.chunk_strategy
      notes := p.notes.or existing.notes
      status := GStatus.ready
      updatedAt := some now }
  (fun k => if k = id then some merged else acc.1 k, acc.2 ++ [id])

/-- `setPlan`. -/
def setPlan (st : WorkflowState) (plan : Option (List PlanEntry))
    (now : String) : WorkflowState :=
  let ra := st.researchAgentStatus
  let acc := (plan.getD []).foldl (setPlanStep now) (ra.livePlanSteps, [])
  { st with researchAgentStatus :=
    { ra with
      plan := plan
      livePlanSteps := acc.1
      planOrder := if acc.2.length ≠ 0 then acc.2 else ra.planOrder } }

/-- `setSynthesizedGoal`. -/
def setSynthesizedGoal (st : WorkflowState)
    (g : Option SynthesizedGoal) : WorkflowState :=
  let ra := st.researchAgentStatus
  { st with researchAgentStatus := { ra with synthesizedGoal := g } }

/-- `appendStreamToken`: append the token to the (possibly freshly created)
buffer, bump its token count, and refresh the foreground view when the
buffer is the active one. -/
def appendStreamToken (st : WorkflowState) (streamId token : String)
    (now : String) : WorkflowState :=
  let ra := st.researchAgentStatus
  let buffer := (ra.streams.buffers streamId).getD
    { id := streamId, raw := "", status := BStatus.active, tokenCount := 0,
      error := none, pinned := none, isStreaming := true, phase := none,
      metadata := none, startedAt := some now, lastTokenAt := none, endedAt := none }
  let updatedBuffer : StreamBufferState :=
    { buffer with
      raw := buffer.raw ++ token
      tokenCount := buffer.tokenCount + 1
      lastTokenAt := some now
      isStreaming := true
      status := BStatus.active }
  let buffers := fun k => if k = streamId then some updatedBuffer else ra.streams.buffers k
  let isActive := ra.streams.activeStreamId == some streamId
  let streamingState :=
    if isActive then
      { isStreaming := true
        phase := updatedBuffer.phase.or ra.streamingState.phase
        metadata := updatedBuffer.metadata.or ra.streamingState.metadata
        startedAt := updatedBuffer.startedAt.or ra.streamingState.startedAt
        lastTokenAt := some now
        endedAt := none }
    else ra.streamingState
  { st with researchAgentStatus :=
    { ra with
      streams := { ra.streams with buffers := buffers }
      streamBuffer := if isActive then updatedBuffer.raw else ra.streamBuffer
      streamingState := streamingState } }

/-- The runtime object spread `{...g, ...goal}` of a `goal.update` payload
into a confirmed-goals array entry. -/
def mergeGoalEntry (ge : GoalEntry) (g : LiveGoalPatch) : GoalEntry :=
  { id := g.id
    goal_text := g.goal_text.getD ge.goal_text
    uses := g.uses.or ge.uses
    sources := g.sources.or ge.sources
    rationale := g.rationale.or ge.rationale
    status := g.status.or ge.status
    updatedAt := g.updatedAt.or ge.updatedAt }

/-- The `merged` object of `updateLiveGoal`: defaults, then the previous
entry's fields, then the fields present in the event (`status` falls back
to the previous status, then `'streaming'`; `updatedAt` defaults to the
merge timestamp). -/
def mergedLiveGoal (g : LiveGoalPatch) (previous : Option LiveGoal)
    (now : String) : LiveGoal :=
  { id := g.id
    goal_text := g.goal_text.or (previous.bind (·.goal_text))
    rationale := g.rationale.or (previous.bind (·.rationale))
    uses := g.uses.or (previous.bind (·.uses))
    sources := g.sources.or (previous.bind (·.sources))
    status := g.status.getD ((previous.map (·.status)).getD GStatus.streaming)
    updatedAt := g.updatedAt.or (some now) }

/-- `updateLiveGoal`: field-level merge into `liveGoals` (fields absent from
the event keep the previous value; `status` falls back to the previous
status, then `'streaming'`), patch the confirmed `goals` array, and append
the id to `goalOrder` when first seen. -/
def updateLiveGoal (st : WorkflowState) (g : LiveGoalPatch)
    (now : String) : WorkflowState :=
  let ra := st.researchAgentStatus
  let id := g.id
  let previous := ra.liveGoals id
  let merged : LiveGoal := mergedLiveGoal g previous now
  let liveGoals := fun k => if k = id then some merged else ra.liveGoals k
  let existingGoals := ra.goals.getD []
  let goals := if existingGoals.length ≠ 0 then
      some (existingGoals.map (fun ge => if ge.id = id then mergeGoalEntry ge g else ge))
    else none
  let goalOrder := if ra.goalOrder.contains id then ra.goalOrder else ra.goalOrder ++ [id]
  { st with researchAgentStatus :=
    { ra with liveGoals := liveGoals, goals := goals, goalOrder := goalOrder } }

/-- Timestamp order on conversation messages (the numeric sort comparator). -/
def msgLE (a b : ConversationMessage) : Prop := a.timestamp ≤ b.timestamp

instance : DecidableRel msgLE := fun a b => Int.decLe a.timestamp b.timestamp

instance : IsTotal ConversationMessage msgLE :=
  ⟨fun a b => Int.le_total a.timestamp b.timestamp⟩

instance : IsTrans ConversationMessage msgLE :=
  ⟨fun _ _ _ h₁ h₂ => Int.le_trans h₁ h₂⟩

/-- The conversation-list computation of `upsertConversationMessage`: drop
any entry with the same id, insert the message, re-sort by timestamp, and
keep only the newest 200 entries (`merged.slice(merged.length - 200)`). -/
def upsertList (l : List ConversationMessage)
    (m : ConversationMessage) : List ConversationMessage :=
  let existing := l.filter (fun item => !(item.id == m.id))
  let merged := List.insertionSort msgLE (existing ++ [m])
  if merged.length > 200 then merged.drop (merged.length - 200) else merged

/-- `upsertConversationMessage`. -/
def upsertConversationMessage (st : WorkflowState)
    (m : ConversationMessage) : WorkflowState :=
  let ra := st.researchAgentStatus
  let limited := upsertList ra.conversationMessages m
  { st with researchAgentStatus := { ra with conversationMessages := limited } }

/-- Plan order on Phase-3 steps (the `a.step_id - b.step_id` comparator). -/
def stepLE (a b : SessionStep) : Prop := a.step_id ≤ b.step_id

instance : DecidableRel stepLE := fun a b => Nat.decLe a.step_id b.step_id

instance : IsTotal SessionStep stepLE := ⟨fun a b => Nat.le_total a.step_id b.step_id⟩

instance : IsTrans SessionStep stepLE := ⟨fun _ _ _ h₁ h₂ => Nat.le_trans h₁ h₂⟩

/-- `Array.prototype.sort` with the step comparator: a stable sort by step id. -/
def sortSteps (l : List SessionStep) : List SessionStep := List.insertionSort stepLE l

/-- `Map.set` on a JS `Map<number, SessionStep>` represented as its entry
list: an existing key keeps its insertion position and takes the new
value; a new key is appended. -/
def mapSet (m : List SessionStep) (s : SessionStep) : List SessionStep :=
  if m.any (fun t => t.step_id == s.step_id) then
    m.map (fun t => if t.step_id == s.step_id then s else t)
  else m ++ [s]

/-- The `stepsMap` rebuild in `addPhase3Step`: insert every existing step
whose id differs from the incoming one, then insert the incoming step. -/
def rebuildSteps (l : List SessionStep) (s : SessionStep) : List SessionStep :=
  mapSet (l.foldl (fun m t => if t.step_id == s.step_id then m else mapSet m t) []) s

/-- The `phase3Steps` part of `addPhase3Step`: replace-or-append keyed by
`step_id`, then sort by `step_id`. -/
def addStepList (l : List SessionStep) (s : SessionStep) : List SessionStep :=
  sortSteps (if l.any (fun t => t.step_id == s.step_id) then rebuildSteps l s else l ++ [s])

/-- `addPhase3Step`. -/
def addPhase3Step (st : WorkflowState) (step : SessionStep) : WorkflowState :=
  { st with phase3Steps := addStepList st.phase3Steps step, currentStepId := some step.step_id }

/-- `setPhase3Steps`: sort the given list by step id and pick the current
step id (`nextStepId` when it is a number, else the last sorted step). -/
def setPhase3Steps (st : WorkflowState) (steps : List SessionStep)
    (nextStepId : Option Nat) : WorkflowState :=
  let sorted := sortSteps steps
  let lastCompleted := sorted.getLast?.map (·.step_id)
  { st with
    phase3Steps := sorted
    currentStepId := match nextStepId with | some n => some n | none => lastCompleted }

/-- The messages `validateState` can push, abstracted to tags carrying the
interpolated data; the source strings are, in order:
`'Scraping items exist but no batchId set'`,
`'Research goals exist but scraping not completed'`,
`'Phase3 steps exist but no research plan found'`,
`` `Final report exists but phase3 incomplete (d/t steps)` ``,
`'Workflow has progress but workflowStarted is false'`,
`'No batchId but workflow state exists (state should be reset)'`. -/
inductive ValidationIssue where
  | itemsWithoutBatch
  | goalsWithoutScraping
  | stepsWithoutPlan
  | reportIncomplete (done total : Nat)
  | progressNotStarted
  | stateWithoutBatch
deriving DecidableEq

/-- `validateState` as a pure function of the state, returning
`(isValid, errors)`. The branch guard `if (state.batchId)` is JS
truthiness: an empty-string batch id is falsy and takes the no-batch
branch. -/
def validateState (st : WorkflowState) : Bool × List ValidationIssue :=
  let errors : List ValidationIssue :=
    if strTruthy st.batchId = true then
      (if st.scrapingStatus.items.length > 0 ∧ strTruthy st.batchId = false then
        [ValidationIssue.itemsWithoutBatch] else [])
      ++ (if st.researchAgentStatus.goals ≠ none ∧ st.scrapingStatus.completed = 0 then
        [ValidationIssue.goalsWithoutScraping] else [])
      ++ (if st.phase3Steps.length > 0 ∧ st.researchAgentStatus.plan = none then
        [ValidationIssue.stepsWithoutPlan] else [])
      ++ (match st.finalReport, st.researchAgentStatus.plan with
          | some _, some plan =>
            if st.phase3Steps.length < plan.length then
              [ValidationIssue.reportIncomplete st.phase3Steps.length plan.length]
            else []
          | _, _ => [])
      ++ (if st.workflowStarted = false ∧
            (st.scrapingStatus.total > 0 ∨ st.researchAgentStatus.goals ≠ none ∨
              st.phase3Steps.length > 0) then
        [ValidationIssue.progressNotStarted] else [])
    else
      if st.scrapingStatus.total > 0 ∨ st.researchAgentStatus.goals ≠ none ∨
          st.phase3Steps.length > 0 ∨ st.finalReport ≠ none then
        [ValidationIssue.stateWithoutBatch]
      else []
  (errors.length == 0, errors)

/-! ### `HistoryPage` hydration (resume / view) -/

/-- `ScrapingStatusSnapshot` from a persisted session. -/
structure ScrapingStatusSnapshot where
  total : Option Int
  expected_total : Option Int
  completed : Option Int
  failed : Option Int
  inProgress : Option Int
  items : Option (List ScrapingItem)
  completionRate : Option Rat
  is100Percent : Option Bool
  canProceedToResearch : Option Bool

/-- Persisted `Phase3State`. `next_step_id?: number | null` distinguishes
absent from explicit `null`, hence the nested `Option`. -/
structure Phase3State where
  plan : Option (List PlanEntry)
  steps : Option (List SessionStep)
  completed_step_ids : Option (List Nat)
  total_steps : Option Nat
  next_step_id : Option (Option Nat)
  synthesized_goal : Option SynthesizedGoal

/-- An entry of `metadata.phase1_confirmed_goals` (untyped in the source;
only these keys are read). -/
structure MetaGoal where
  id : Option Nat
  goal_id : Option Nat
  goal_text : Option String
  goal : Option String
  uses : Option (List String)
  sources : Option (List String)

/-- The keys of `sessionData.metadata` the hydrator reads. -/
structure SessionMetadata where
  phase1_confirmed_goals : Option (List MetaGoal)
  research_plan : Option (List PlanEntry)
  synthesized_goal : Option SynthesizedGoal

/-- `HistorySessionDetail`. -/
structure HistorySessionDetail where
  batch_id : String
  session_id : Option String
  created_at : String
  status : String
  topic : Option String
  url_count : Option Nat
  current_phase : Option String
  metadata : Option SessionMetadata
  scraping_status : Option ScrapingStatusSnapshot
  phase3 : Option Phase3State
  resume_required : Option Bool
  data_loaded : Option Bool

/-- `metadata.phase1_confirmed_goals || []` (arrays are truthy, so an
explicit empty list is kept). -/
def effGoals (d : HistorySessionDetail) : List MetaGoal :=
  (d.metadata.bind (·.phase1_confirmed_goals)).getD []

/-- `metadata.research_plan || sessionData.phase3?.plan || []`. -/
def effPlan (d : HistorySessionDetail) : List PlanEntry :=
  ((d.metadata.bind (·.research_plan)).or (d.phase3.bind (·.plan))).getD []

/-- `metadata.synthesized_goal || sessionData.phase3?.synthesized_goal || null`. -/
def effSynth (d : HistorySessionDetail) : Option SynthesizedGoal :=
  (d.metadata.bind (·.synthesized_goal)).or (d.phase3.bind (·.synthesized_goal))

/-- The research-phase inference of the hydrator: plan non-empty ⇒ `'2'`,
else goals non-empty ⇒ `'1'`, else `'0.5'`. -/
def researchPhaseOf (d : HistorySessionDetail) : String :=
  if (effPlan d).length > 0 then "2"
  else if (effGoals d).length > 0 then "1"
  else "0.5"

/-- One entry of `mappedGoals` (`g.id || g.goal_id || 0` etc.). -/
def mapGoal (g : MetaGoal) : GoalEntry :=
  { id := jsOrNat g.id (jsOrNat g.goal_id 0)
    goal_text := jsOrStr g.goal_text (jsOrStr g.goal "")
    uses := some (g.uses.getD [])
    sources := some (g.sources.getD [])
    rationale := none
    status := none
    updatedAt := none }

/-- `hydrateWorkflowState` (HistoryPage): hydrate the scraping snapshot,
set the inferred research phase, then goals, plan, synthesized goal and
the persisted Phase-3 plan/steps. -/
def hydrateWorkflowState (st : WorkflowState) (d : HistorySessionDetail)
    (now : String) : WorkflowState :=
  let st₁ := match d.scraping_status with
    | some snap => updateScrapingStatus st
        { total := some ((snap.total.or snap.expected_total).getD 0)
          expectedTotal := some (some ((snap.expected_total.or snap.total).getD 0))
          completed := some (snap.completed.getD 0)
          failed := some (snap.failed.getD 0)
          inProgress := some (snap.inProgress.getD 0)
          items := some (snap.items.getD [])
          completionRate := some (snap.completionRate.getD 0)
          is100Percent := some (snap.is100Percent.getD false)
          canProceedToResearch := some (snap.canProceedToResearch.getD false) }
    | none => st
  let goals := effGoals d
  let plan := effPlan d
  let synthesizedGoal := effSynth d
  let mappedGoals := goals.map mapGoal
  let st₂ := updateResearchAgentStatus st₁
    { ResearchAgentStatusPatch.empty with
      phase := some (researchPhaseOf d)
      currentAction := some none
      waitingForUser := some false
      userInputRequired := some none }
  let st₃ := if mappedGoals.length > 0 then setGoals st₂ (some mappedGoals) now else st₂
  let st₄ := if plan.length > 0 then setPlan st₃ (some plan) now else st₃
  let st₅ := if synthesizedGoal.isSome then setSynthesizedGoal st₄ synthesizedGoal else st₄
  match d.phase3 with
  | some p3 =>
    let phase3Plan := p3.plan.getD plan
    let phase3Steps := p3.steps.getD []
    let st₆ := if phase3Plan.length > 0 ∧ plan.length = 0 then
        setPlan st₅ (some phase3Plan) now
      else st₅
    let st₇ := if p3.synthesized_goal.isSome ∧ synthesizedGoal.isNone then
        setSynthesizedGoal st₆ p3.synthesized_goal
      else st₆
    if phase3Steps.length > 0 then
      setPhase3Steps st₇ phase3Steps p3.next_step_id.join
    else st₇
  | none => st₅

/-- `handleResume`'s phase fallback:
`current_phase || (completed ? 'complete' : data_loaded ? 'research' : 'scraping')`. -/
def resolvedResumePhase (d : HistorySessionDetail) : String :=
  jsOrStr d.current_phase
    (if d.status = "completed" then "complete"
     else if d.data_loaded = some true then "research" else "scraping")

/-- `handleView`'s phase fallback:
`current_phase || (completed ? 'complete' : 'research')`. -/
def resolvedViewPhase (d : HistorySessionDetail) : String :=
  jsOrStr d.current_phase (if d.status = "completed" then "complete" else "research")

/-- `handleResume`'s decision to issue the resume command. -/
def shouldResume (d : HistorySessionDetail) : Bool :=
  (!(d.status == "completed") && !(resolvedResumePhase d == "complete")) ||
    (d.resume_required == some true)

/-- `sessionData.session_id || null`. -/
def normalizedSessionId (d : HistorySessionDetail) : Option String :=
  match d.session_id with
  | some s => if s = "" then none else some s
  | none => none

/-- The store mutations `handleResume` performs, in order: `setBatchId`,
`setSessionId`, `setWorkflowStarted false`, `hydrateWorkflowState`, then
`setCurrentPhase` with the resume-path fallback (the resume command sent
to the server between the last two is not a store mutation). -/
def resumeStoreState (st : WorkflowState) (d : HistorySessionDetail)
    (now : String) : WorkflowState :=
  setCurrentPhase
    (hydrateWorkflowState
      (setWorkflowStarted (setSessionId (setBatchId st d.batch_id) (normalizedSessionId d)) false)
      d now)
    (resolvedResumePhase d)

/-- The store mutations `handleView` performs, in order: `setBatchId`,
`setSessionId`, `setWorkflowStarted false`, `hydrateWorkflowState`, then
`setCurrentPhase` with the view-path fallback. -/
def viewStoreState (st : WorkflowState) (d : HistorySessionDetail)
    (now : String) : WorkflowState :=
  setCurrentPhase
    (hydrateWorkflowState
      (setWorkflowStarted (setSessionId (setBatchId st d.batch_id) (normalizedSessionId d)) false)
      d now)
    (resolvedViewPhase d)

/-! ### Helper lemmas -/

theorem optOr_self_left {α : Type} (a b : Option α) : a.or (a.or b) = a.or b := by
  cases a <;> simp

theorem optGetD_self_left {α : Type} (a : Option α) (x : α) :
    a.getD (a.getD x) = a.getD x := by
  cases a <;> simp

/-! ### C4 -/

/-- **C4**: `updateScrapingStatus` with an incoming `expectedTotal` of `0` or
`null` leaves `scrapingStatus.expectedTotal` unchanged while still merging
every other field of the update; in particular from a state with
`expectedTotal = 0` such an update never sets it. -/
theorem expectedTotal_never_regresses (st : WorkflowState) (p : ScrapingStatusPatch)
    (h : p.expectedTotal = some none ∨ p.expectedTotal = some (some 0)) :
    (updateScrapingStatus st p).scrapingStatus.expectedTotal
        = st.scrapingStatus.expectedTotal ∧
    (updateScrapingStatus st p).scrapingStatus.total
        = p.total.getD st.scrapingStatus.total ∧
    (updateScrapingStatus st p).scrapingStatus.completed
        = p.completed.getD st.scrapingStatus.completed ∧
    (updateScrapingStatus st p).scrapingStatus.failed
        = p.failed.getD st.scrapingStatus.failed ∧
    (updateScrapingStatus st p).scrapingStatus.inProgress
        = p.inProgress.getD st.scrapingStatus.inProgress ∧
    (updateScrapingStatus st p).scrapingStatus.items
        = p.items.getD st.scrapingStatus.items ∧
    (updateScrapingStatus st p).scrapingStatus.completionRate
        = p.completionRate.getD st.scrapingStatus.completionRate ∧
    (updateScrapingStatus st p).scrapingStatus.is100Percent
        = p.is100Percent.getD st.scrapingStatus.is100Percent ∧
    (updateScrapingStatus st p).scrapingStatus.canProceedToResearch
        = p.canProceedToResearch.getD st.scrapingStatus.canProceedToResearch ∧
    (st.scrapingStatus.expectedTotal = 0 →
      (updateScrapingStatus st p).scrapingStatus.expectedTotal = 0) := by
  rcases h with h | h <;> simp [updateScrapingStatus, h]

def c4State : WorkflowState :=
  { initialState with scrapingStatus := { initialState.scrapingStatus with expectedTotal := 5 } }

def c4Patch : ScrapingStatusPatch :=
  { ScrapingStatusPatch.empty with expectedTotal := some (some 0), completed := some 3 }

/-- Witness for C4 at a concrete state/update. -/
theorem expectedTotal_never_regresses_witness :
    c4Patch.expectedTotal = some (some 0) ∧
    (updateScrapingStatus c4State c4Patch).scrapingStatus.expectedTotal
      = c4State.scrapingStatus.expectedTotal :=
  ⟨rfl, (expectedTotal_never_regresses c4State c4Patch (Or.inr rfl)).1⟩

/-! ### C10 -/

/-- **C10**: `setBatchId` with the already-stored batch id rewrites `batchId`
and `workflowStarted` with their existing values and leaves every other
field unchanged (so the state is unchanged); with a different batch id it
resets every workflow field to its initial value, keeping only the new
batch id. -/
theorem setBatchId_same_or_reset (st : WorkflowState) (b : String) :
    (st.batchId = some b → setBatchId st b = st) ∧
    (st.batchId ≠ some b → setBatchId st b = { initialState with batchId := some b }) := by
  constructor
  · intro h
    unfold setBatchId
    rw [if_pos h, ← h]
  · intro h
    unfold setBatchId
    rw [if_neg h]
    rfl

/-- Witness for C10 in both branches. -/
theorem setBatchId_same_or_reset_witness :
    ({ initialState with batchId := some "b" } : WorkflowState).batchId = some "b" ∧
    setBatchId { initialState with batchId := some "b" } "b"
      = { initialState with batchId := some "b" } ∧
    setBatchId initialState "b2" = { initialState with batchId := some "b2" } :=
  ⟨rfl, (setBatchId_same_or_reset { initialState with batchId := some "b" } "b").1 rfl,
    (setBatchId_same_or_reset initialState "b2").2 (by decide)⟩

/-! ### C6 -/

/-- Count of items with the given status (`items.filter(s).length`). -/
def countByStatus (s : IStatus) (items : List ScrapingItem) : Int :=
  ((items.filter (fun i => i.status == s)).length : Int)

/-- The in-progress count used by `updateScrapingItemProgress`, which also
counts `'pending'` items. -/
def countActive (items : List ScrapingItem) : Int :=
  ((items.filter (fun i =>
    i.status == IStatus.inProgress || i.status == IStatus.pending)).length : Int)

/-- **C6 (amended)**: after either scraping-item mutation the counters are
recomputed from the resulting item list alone (never carried over from the
previous counters): `completed` and `failed` by one function shared by both
operations, while `inProgress` is computed by `countByStatus 'in-progress'`
in `updateScrapingItem` but by `countActive` (which also counts
`'pending'`) in `updateScrapingItemProgress`. -/
theorem counters_recomputed_from_items (st : WorkflowState) (url : String)
    (status : IStatus) (err : Option String) (link_id : Option String)
    (p : ScrapingItemPatch) :
    (updateScrapingItem st url status err).scrapingStatus.completed
        = countByStatus IStatus.completed
            (updateScrapingItem st url status err).scrapingStatus.items ∧
    (updateScrapingItem st url status err).scrapingStatus.failed
        = countByStatus IStatus.failed
            (updateScrapingItem st url status err).scrapingStatus.items ∧
    (updateScrapingItem st url status err).scrapingStatus.inProgress
        = countByStatus IStatus.inProgress
            (updateScrapingItem st url status err).scrapingStatus.items ∧
    (updateScrapingItemProgress st link_id url p).scrapingStatus.completed
        = countByStatus IStatus.completed
            (updateScrapingItemProgress st link_id url p).scrapingStatus.items ∧
    (updateScrapingItemProgress st link_id url p).scrapingStatus.failed
        = countByStatus IStatus.failed
            (updateScrapingItemProgress st link_id url p).scrapingStatus.items ∧
    (updateScrapingItemProgress st link_id url p).scrapingStatus.inProgress
        = countActive (updateScrapingItemProgress st link_id url p).scrapingStatus.items :=
  ⟨rfl, rfl, rfl, rfl, rfl, rfl⟩

/-- A pending scraping item with the given url and no other data. -/
def c6Item (u : String) : ScrapingItem :=
  { link_id := none, url := u, status := IStatus.pending, error := none,
    current_stage := none, stage_progress := none, overall_progress := none,
    status_message := none, started_at := none, completed_at := none,
    source := none, word_count := none, bytes_downloaded := none, total_bytes := none }

def c6State : WorkflowState :=
  { initialState with scrapingStatus :=
    { initialState.scrapingStatus with items := [c6Item "u", c6Item "v"] } }

/-- Counterexample to C6 as stated: the two mutations produce the *same*
resulting item list but different `inProgress` counters, so the counters
are not one fixed function of the item list shared by both operations. -/
theorem counters_not_one_fixed_function :
    (updateScrapingItem c6State "u" IStatus.completed none).scrapingStatus.items
      = (updateScrapingItemProgress c6State none "u"
          { ScrapingItemPatch.empty with status := some IStatus.completed }).scrapingStatus.items ∧
    (updateScrapingItem c6State "u" IStatus.completed none).scrapingStatus.inProgress = 0 ∧
    (updateScrapingItemProgress c6State none "u"
        { ScrapingItemPatch.empty with status := some IStatus.completed }).scrapingStatus.inProgress
      = 1 := by
  decide

/-! ### C3 -/

/-- The scenario's first event: `goal.update {id:1, status:'streaming'}`. -/
def c3StatusPatch : LiveGoalPatch := ⟨1, none, none, none, none, some GStatus.streaming, none⟩

/-- The scenario's second event: `goal.update {id:1, goal_text:'X'}` (no status). -/
def c3Patch : LiveGoalPatch := ⟨1, some "X", none, none, none, none, none⟩

/-- State after the scenario's first event. -/
def c3First (t : String) : WorkflowState := updateLiveGoal initialState c3StatusPatch t

/-- State after both scenario events. -/
def c3Second (t₁ t₂ : String) : WorkflowState := updateLiveGoal (c3First t₁) c3Patch t₂

/-- **C3 (amended)**: `updateLiveGoal` with an event that omits a field keeps
that field's stored value — for every field except the bookkeeping field
`updatedAt`, which is always rewritten to the merge timestamp — and an
event omitting `status` never changes the stored status; in particular
`{id:1, status:'streaming'}` followed by `{id:1, goal_text:'X'}` leaves the
goal with status `'streaming'` and goal text `'X'`. -/
theorem updateLiveGoal_omitted_fields (st : WorkflowState) (g : LiveGoalPatch)
    (now : String) (prev : LiveGoal)
    (hprev : st.researchAgentStatus.liveGoals g.id = some prev) :
    (∃ m, (updateLiveGoal st g now).researchAgentStatus.liveGoals g.id = some m ∧
      (g.goal_text = none → m.goal_text = prev.goal_text) ∧
      (g.rationale = none → m.rationale = prev.rationale) ∧
      (g.uses = none → m.uses = prev.uses) ∧
      (g.sources = none → m.sources = prev.sources) ∧
      (g.status = none → m.status = prev.status)) ∧
    (∀ t₁ t₂ : String,
      ((c3Second t₁ t₂).researchAgentStatus.liveGoals 1).map
          (fun lg => (lg.status, lg.goal_text))
        = some (GStatus.streaming, some "X")) := by
  constructor
  · refine ⟨LiveGoal.mk g.id (g.goal_text.or prev.goal_text)
        (g.rationale.or prev.rationale) (g.uses.or prev.uses)
        (g.sources.or prev.sources) (g.status.getD prev.status)
        (g.updatedAt.or (some now)), ?_, ?_, ?_, ?_, ?_, ?_⟩
    · simp [updateLiveGoal, mergedLiveGoal, hprev]
    all_goals intro h
    all_goals simp [h]
  · intro t₁ t₂
    simp [c3Second, c3First, c3Patch, c3StatusPatch, updateLiveGoal, mergedLiveGoal,
      initialState]

/-- Counterexample to C3 as stated: the event omits `updatedAt`, yet the
stored `updatedAt` changes from the first merge timestamp to the second. -/
theorem updateLiveGoal_updatedAt_changes :
    c3Patch.updatedAt = none ∧
    (((c3First "t0").researchAgentStatus.liveGoals 1).map (·.updatedAt)
      = some (some "t0")) ∧
    (((c3Second "t0" "t1").researchAgentStatus.liveGoals 1).map (·.updatedAt)
      = some (some "t1")) := by
  decide

/-- Witness for C3 at a concrete state/event. -/
theorem updateLiveGoal_omitted_fields_witness :
    ∃ m, (updateLiveGoal (c3First "t0") c3Patch "t1").researchAgentStatus.liveGoals
        c3Patch.id = some m ∧
      (c3Patch.goal_text = none → m.goal_text = none) ∧
      (c3Patch.rationale = none → m.rationale = none) ∧
      (c3Patch.uses = none → m.uses = none) ∧
      (c3Patch.sources = none → m.sources = none) ∧
      (c3Patch.status = none → m.status = GStatus.streaming) :=
  (updateLiveGoal_omitted_fields (c3First "t0") c3Patch "t1"
    ⟨1, none, none, none, none, GStatus.streaming, some "t0"⟩ (by decide)).1

/-! ### C8 -/

/-- Whether an issue is the final-report-completeness violation. -/
def isReportIncomplete : ValidationIssue → Bool
  | ValidationIssue.reportIncomplete _ _ => true
  | _ => false

/-- Whether `validateState` reported the final-report-completeness violation. -/
def hasReportIncomplete (st : WorkflowState) : Bool :=
  (validateState st).2.any isReportIncomplete

/-- **C8 (amended)**: `validateState` reports the final-report-completeness
violation exactly when a truthy (non-empty) batch id is set, a final
report exists, a plan exists, and the phase-3 step count is *less than*
the plan length; whenever the count is at least the plan length — in
particular equal — no such violation is reported. -/
theorem validateState_report_completeness (st : WorkflowState) :
    (hasReportIncomplete st = true ↔
      strTruthy st.batchId = true ∧ st.finalReport ≠ none ∧
        ∃ plan, st.researchAgentStatus.plan = some plan ∧
          st.phase3Steps.length < plan.length) ∧
    (∀ plan, st.researchAgentStatus.plan = some plan →
      st.phase3Steps.length = plan.length → hasReportIncomplete st = false) := by
  have key : hasReportIncomplete st = true ↔
      strTruthy st.batchId = true ∧ st.finalReport ≠ none ∧
        ∃ plan, st.researchAgentStatus.plan = some plan ∧
          st.phase3Steps.length < plan.length := by
    unfold hasReportIncomplete validateState
    by_cases hb : strTruthy st.batchId = true <;>
      cases hf : st.finalReport <;>
        cases hpl : st.researchAgentStatus.plan <;>
          simp [hb, List.any_append, isReportIncomplete,
            apply_ite (fun l : List ValidationIssue => l.any isReportIncomplete)]
  refine ⟨key, fun plan hp heq => ?_⟩
  by_cases hval : hasReportIncomplete st = true
  · rcases key.mp hval with ⟨_, _, plan', hp', hlt⟩
    rw [hp] at hp'
    injection hp' with hpe
    subst hpe
    omega
  · simp only [Bool.not_eq_true] at hval
    exact hval

def c8PlanEntry : PlanEntry := ⟨1, "g", none, none, none, none, none⟩

def c8StateOk : WorkflowState :=
  { initialState with
    batchId := some "b"
    finalReport := some ⟨"r", "t", RStatus.ready⟩
    researchAgentStatus := { initialState.researchAgentStatus with plan := some [c8PlanEntry] }
    phase3Steps := [mkStep 1 "" ""] }

/-- Witness for C8: step count equal to plan length yields no violation. -/
theorem validateState_report_completeness_witness :
    hasReportIncomplete c8StateOk = false :=
  (validateState_report_completeness c8StateOk).2 [c8PlanEntry] rfl rfl

def c8StateOver : WorkflowState :=
  { c8StateOk with phase3Steps := [mkStep 1 "" "", mkStep 2 "" ""] }

/-- Counterexample to C8 as stated: a truthy batch id, final report and
plan exist and the step count (2) differs from the plan length (1), yet no
completeness violation is reported (the code only flags a count *below*
the plan length). -/
theorem validateState_count_mismatch_not_flagged :
    strTruthy c8StateOver.batchId = true ∧ c8StateOver.finalReport ≠ none ∧
    c8StateOver.researchAgentStatus.plan = some [c8PlanEntry] ∧
    c8StateOver.phase3Steps.length ≠ [c8PlanEntry].length ∧
    hasReportIncomplete c8StateOver = false := by
  decide

/-! ### Phase-3 step collection machinery -/

/-- Strict plan order on steps. -/
def stepLT (a b : SessionStep) : Prop := a.step_id < b.step_id

instance : DecidableRel stepLT := fun a b => Nat.decLt a.step_id b.step_id

instance : IsAntisymm SessionStep stepLT :=
  ⟨fun _ _ h₁ h₂ => absurd (Nat.lt_trans h₁ h₂) (Nat.lt_irrefl _)⟩

theorem sortSteps_perm (l : List SessionStep) : (sortSteps l).Perm l :=
  List.perm_insertionSort stepLE l

theorem sortSteps_sorted (l : List SessionStep) : List.Sorted stepLE (sortSteps l) :=
  List.sorted_insertionSort stepLE l

/-- A `stepLE`-sorted list whose step ids are distinct is strictly sorted. -/
theorem strict_of_sorted_nodup {l : List SessionStep}
    (hs : List.Sorted stepLE l) (hn : (l.map SessionStep.step_id).Nodup) :
    List.Pairwise stepLT l := by
  have hne : l.Pairwise (fun a b => a.step_id ≠ b.step_id) := List.pairwise_map.mp hn
  exact List.Pairwise.imp₂ (fun a b hle hneq => Nat.lt_of_le_of_ne hle hneq) hs hne

/-- A strictly sorted step list has distinct step ids. -/
theorem nodup_of_strict {l : List SessionStep} (h : List.Pairwise stepLT l) :
    (l.map SessionStep.step_id).Nodup :=
  List.pairwise_map.mpr (h.imp fun hlt => Nat.ne_of_lt hlt)

/-- The `stepsMap` fold of `addPhase3Step` over a duplicate-free list is a
plain filtered append. -/
theorem foldl_mapSet_eq (s : SessionStep) :
    ∀ (l : List SessionStep) (m : List SessionStep),
      (l.map SessionStep.step_id).Nodup →
      (∀ t ∈ l, ∀ u ∈ m, t.step_id ≠ u.step_id) →
      l.foldl (fun acc t => if t.step_id == s.step_id then acc else mapSet acc t) m
        = m ++ l.filter (fun t => !(t.step_id == s.step_id))
  | [], m, _, _ => by simp
  | t :: l, m, hn, hd => by
    rw [List.foldl_cons]
    by_cases ht : t.step_id = s.step_id
    · rw [if_pos (by simpa using ht)]
      rw [foldl_mapSet_eq s l m (by simpa using (List.map_cons SessionStep.step_id t l ▸ hn).of_cons)
        (fun t' ht' u hu => hd t' (List.mem_cons_of_mem t ht') u hu)]
      simp [List.filter_cons, ht]
    · rw [if_neg (by simpa using ht)]
      have hmap : mapSet m t = m ++ [t] := by
        unfold mapSet
        rw [if_neg]
        simp only [List.any_eq_true, not_exists, beq_iff_eq, not_and]
        intro u hu
        exact fun he => (hd t (List.mem_cons_self t l) u hu) he.symm
      rw [hmap]
      have hn' : (l.map SessionStep.step_id).Nodup :=
        (List.map_cons SessionStep.step_id t l ▸ hn).of_cons
      have hhead : t.step_id ∉ l.map SessionStep.step_id := by
        have := List.map_cons SessionStep.step_id t l ▸ hn
        exact (List.nodup_cons.mp this).1
      have hd' : ∀ t' ∈ l, ∀ u ∈ m ++ [t], t'.step_id ≠ u.step_id := by
        intro t' ht' u hu
        rcases List.mem_append.mp hu with hu | hu
        · exact hd t' (List.mem_cons_of_mem t ht') u hu
        · rcases List.mem_singleton.mp hu with rfl
          intro he
          exact hhead (he ▸ List.mem_map_of_mem SessionStep.step_id ht')
      rw [foldl_mapSet_eq s l (m ++ [t]) hn' hd']
      simp [List.filter_cons, ht]

/-- On a duplicate-free list the Map rebuild is filter-then-append. -/
theorem rebuildSteps_eq {l : List SessionStep} (s : SessionStep)
    (hn : (l.map SessionStep.step_id).Nodup) :
    rebuildSteps l s = l.filter (fun t => !(t.step_id == s.step_id)) ++ [s] := by
  unfold rebuildSteps
  rw [foldl_mapSet_eq s l [] hn (by simp)]
  unfold mapSet
  rw [if_neg]
  · simp
  · simp only [List.nil_append, List.any_eq_true, not_exists, not_and]
    intro u hu
    have h2 := List.of_mem_filter hu
    simp only [Bool.not_eq_true', beq_eq_false_iff_ne, ne_eq] at h2
    simpa using h2

/-- On a duplicate-free list, both branches of `addPhase3Step` sort the
filtered list with the incoming step appended. -/
theorem addStepList_eq {l : List SessionStep} (s : SessionStep)
    (hn : (l.map SessionStep.step_id).Nodup) :
    addStepList l s = sortSteps (l.filter (fun t => !(t.step_id == s.step_id)) ++ [s]) := by
  unfold addStepList
  by_cases hc : l.any (fun t => t.step_id == s.step_id) = true
  · rw [if_pos hc, rebuildSteps_eq s hn]
  · rw [if_neg hc]
    simp only [Bool.not_eq_true] at hc
    congr 2
    refine (List.filter_eq_self.mpr ?_).symm
    intro t ht
    have h2 := List.any_eq_false.mp hc t ht
    simpa using h2

theorem addStepList_perm {l : List SessionStep} (s : SessionStep)
    (hn : (l.map SessionStep.step_id).Nodup) :
    (addStepList l s).Perm (s :: l.filter (fun t => !(t.step_id == s.step_id))) := by
  rw [addStepList_eq s hn]
  exact (sortSteps_perm _).trans (List.perm_append_singleton s _)

theorem addStepList_nodup {l : List SessionStep} (s : SessionStep)
    (hn : (l.map SessionStep.step_id).Nodup) :
    ((addStepList l s).map SessionStep.step_id).Nodup := by
  have hperm := (addStepList_perm s hn).map SessionStep.step_id
  refine hperm.nodup_iff.mpr ?_
  simp only [List.map_cons, List.nodup_cons]
  constructor
  · intro hmem
    rcases List.mem_map.mp hmem with ⟨t, ht, hid⟩
    have := List.of_mem_filter ht
    simp only [Bool.not_eq_true', beq_eq_false_iff_ne, ne_eq] at this
    exact this (hid ▸ rfl)
  · exact ((List.filter_sublist l).map SessionStep.step_id).nodup hn

theorem addStepList_sorted (l : List SessionStep) (s : SessionStep) :
    List.Sorted stepLE (addStepList l s) := by
  unfold addStepList
  cases l.any (fun t => t.step_id == s.step_id) <;> exact sortSteps_sorted _

theorem addStepList_strict {l : List SessionStep} (s : SessionStep)
    (hn : (l.map SessionStep.step_id).Nodup) :
    List.Pairwise stepLT (addStepList l s) :=
  strict_of_sorted_nodup (addStepList_sorted l s) (addStepList_nodup s hn)

/-- Replace-or-append commutes for steps with different ids (on
duplicate-free lists). -/
theorem addStepList_comm {z : List SessionStep} {a b : SessionStep}
    (hz : (z.map SessionStep.step_id).Nodup) (hab : a.step_id ≠ b.step_id) :
    addStepList (addStepList z a) b = addStepList (addStepList z b) a := by
  have hna := addStepList_nodup a hz
  have hnb := addStepList_nodup b hz
  have hfilters :
      (z.filter (fun t => !(t.step_id == a.step_id))).filter
          (fun t => !(t.step_id == b.step_id))
        = (z.filter (fun t => !(t.step_id == b.step_id))).filter
          (fun t => !(t.step_id == a.step_id)) := by
    rw [List.filter_filter, List.filter_filter]
    congr 1
    funext t
    rw [Bool.and_comm]
  have h₁ : (addStepList (addStepList z a) b).Perm
      (b :: a :: (z.filter (fun t => !(t.step_id == a.step_id))).filter
        (fun t => !(t.step_id == b.step_id))) := by
    refine (addStepList_perm b hna).trans (List.Perm.cons b ?_)
    refine ((addStepList_perm a hz).filter _).trans ?_
    rw [List.filter_cons]
    simp only [beq_iff_eq, hab, Bool.not_eq_true', decide_eq_false_iff_not]
    simp [hab]
  have h₂ : (addStepList (addStepList z b) a).Perm
      (a :: b :: (z.filter (fun t => !(t.step_id == b.step_id))).filter
        (fun t => !(t.step_id == a.step_id))) := by
    refine (addStepList_perm a hnb).trans (List.Perm.cons a ?_)
    refine ((addStepList_perm b hz).filter _).trans ?_
    rw [List.filter_cons]
    simp [Ne.symm hab]
  refine List.eq_of_perm_of_sorted ?_
    (addStepList_strict b hna) (addStepList_strict a hnb)
  refine h₁.trans (.trans ?_ h₂.symm)
  rw [hfilters]
  exact List.Perm.swap a b _

/-! ### C1 -/

theorem optOr_self {α : Type} (a : Option α) : a.or a = a := by
  cases a <;> simp

/-- Merging the same goal event twice produces the same merged entry. -/
theorem mergedLiveGoal_idem (g : LiveGoalPatch) (p : Option LiveGoal) (now : String) :
    mergedLiveGoal g (some (mergedLiveGoal g p now)) now = mergedLiveGoal g p now := by
  unfold mergedLiveGoal
  simp [optOr_self_left, optGetD_self_left]

theorem mergeGoalEntry_idem (ge : GoalEntry) (g : LiveGoalPatch) :
    mergeGoalEntry (mergeGoalEntry ge g) g = mergeGoalEntry ge g := by
  unfold mergeGoalEntry
  simp [optOr_self_left, optGetD_self_left]

/-- `updateLiveGoal` is idempotent (at a fixed merge timestamp). -/
theorem updateLiveGoal_idem (st : WorkflowState) (g : LiveGoalPatch) (now : String) :
    updateLiveGoal (updateLiveGoal st g now) g now = updateLiveGoal st g now := by
  simp only [updateLiveGoal]
  refine WorkflowState.ext rfl rfl rfl rfl rfl rfl rfl rfl rfl rfl rfl rfl rfl rfl
    ?_ rfl rfl rfl rfl
  refine ResearchAgentStatus.ext rfl rfl rfl rfl rfl rfl rfl ?_ ?_ ?_ rfl rfl rfl
    rfl rfl rfl rfl rfl rfl
  · -- liveGoals
    funext k
    by_cases hk : k = g.id
    · subst hk
      simp [mergedLiveGoal_idem]
    · simp [hk]
  · -- goalOrder
    by_cases hmem : g.id ∈ st.researchAgentStatus.goalOrder
    · simp [hmem]
    · simp [hmem]
  · -- goals
    rcases hg : st.researchAgentStatus.goals with _ | l
    · simp
    · by_cases hl : l.length = 0
      · simp [hl]
      · simp only [Option.getD_some, ne_eq, hl, not_false_iff, if_true,
          List.length_map]
        rw [List.map_map]
        congr 1
        refine List.map_congr_left (fun x _ => ?_)
        show (if (if x.id = g.id then mergeGoalEntry x g else x).id = g.id then
            mergeGoalEntry (if x.id = g.id then mergeGoalEntry x g else x) g
          else (if x.id = g.id then mergeGoalEntry x g else x))
          = if x.id = g.id then mergeGoalEntry x g else x
        by_cases hx : x.id = g.id
        · simp only [hx, eq_self_iff_true, if_true]
          have hid : (mergeGoalEntry x g).id = g.id := rfl
          rw [if_pos hid, mergeGoalEntry_idem]
        · simp only [if_neg hx]

/-- The `phase3Steps` replace-or-append is idempotent on lists with distinct
step ids. -/
theorem addStepList_idem {l : List SessionStep} (s : SessionStep)
    (hn : (l.map SessionStep.step_id).Nodup) :
    addStepList (addStepList l s) s = addStepList l s := by
  have hnl := addStepList_nodup s hn
  refine List.eq_of_perm_of_sorted ?_ (addStepList_strict s hnl) (addStepList_strict s hn)
  refine (addStepList_perm s hnl).trans (.trans ?_ (addStepList_perm s hn).symm)
  refine List.Perm.cons s ?_
  refine ((addStepList_perm s hn).filter _).trans ?_
  rw [List.filter_cons]
  simp [List.filter_filter]

/-- `addPhase3Step` is idempotent on states whose step ids are distinct. -/
theorem addPhase3Step_idem (st : WorkflowState) (s : SessionStep)
    (hn : (st.phase3Steps.map SessionStep.step_id).Nodup) :
    addPhase3Step (addPhase3Step st s) s = addPhase3Step st s := by
  simp only [addPhase3Step]
  refine WorkflowState.ext rfl rfl rfl rfl rfl rfl rfl rfl rfl rfl rfl rfl rfl rfl
    rfl ?_ rfl rfl rfl
  exact addStepList_idem s hn

theorem mergeItemProgress_idem (i : ScrapingItem) (p : ScrapingItemPatch) :
    mergeItemProgress (mergeItemProgress i p) p = mergeItemProgress i p := by
  unfold mergeItemProgress
  simp [optOr_self_left, optGetD_self_left]

theorem mergeItemProgress_newItem (l : Option String) (u : String)
    (p : ScrapingItemPatch) :
    mergeItemProgress (newProgressItem l u p) p = newProgressItem l u p := by
  unfold mergeItemProgress newProgressItem
  simp [optOr_self_left, optGetD_self_left, optOr_self]

/-- A matched item still matches after the merge, provided the patch's
identity fields agree with the event's identity arguments. -/
theorem progressHit_merge {link_id : Option String} {url : String}
    {p : ScrapingItemPatch}
    (h1 : strTruthy link_id = true → p.link_id = none ∨ p.link_id = link_id)
    (h2 : strTruthy link_id = false → p.url = none ∨ p.url = some url)
    (item : ScrapingItem) (hh : progressHit link_id url item = true) :
    progressHit link_id url (mergeItemProgress item p) = true := by
  unfold progressHit at hh ⊢
  by_cases hs : strTruthy link_id = true
  · rw [if_pos hs] at hh ⊢
    show ((p.link_id.or item.link_id) == link_id) = true
    rcases h1 hs with hnone | heq
    · rw [hnone, Option.none_or]
      exact hh
    · rw [heq]
      obtain ⟨l, hl⟩ : ∃ l, link_id = some l := by
        cases link_id
        · simp [strTruthy] at hs
        · exact ⟨_, rfl⟩
      rw [hl]
      simp
  · rw [if_neg hs] at hh ⊢
    simp only [Bool.not_eq_true] at hs
    show ((p.url.getD item.url) == url) = true
    rcases h2 hs with hnone | heq
    · rw [hnone, Option.getD_none]
      exact hh
    · rw [heq, Option.getD_some]
      simp

/-- The freshly pushed item matches, under the same consistency proviso. -/
theorem progressHit_newItem {link_id : Option String} {url : String}
    {p : ScrapingItemPatch}
    (h1 : strTruthy link_id = true → p.link_id = none ∨ p.link_id = link_id)
    (h2 : strTruthy link_id = false → p.url = none ∨ p.url = some url) :
    progressHit link_id url (newProgressItem link_id url p) = true := by
  unfold progressHit
  by_cases hs : strTruthy link_id = true
  · rw [if_pos hs]
    show ((p.link_id.or link_id) == link_id) = true
    obtain ⟨l, hl⟩ : ∃ l, link_id = some l := by
      cases link_id
      · simp [strTruthy] at hs
      · exact ⟨_, rfl⟩
    rcases h1 hs with hnone | heq
    · rw [hnone, Option.none_or, hl]
      simp
    · rw [heq, hl]
      simp
  · rw [if_neg hs]
    simp only [Bool.not_eq_true] at hs
    show ((p.url.getD url) == url) = true
    rcases h2 hs with hnone | heq
    · rw [hnone, Option.getD_none]
      simp
    · rw [heq, Option.getD_some]
      simp

/-- The found-check of `updateScrapingItemProgress` agrees with the match
test pointwise. -/
theorem foundPred_eq_hit (link_id : Option String) (url : String)
    (item : ScrapingItem) :
    ((strTruthy link_id && item.link_id == link_id) ||
      (!(strTruthy link_id) && item.url == url)) = progressHit link_id url item := by
  unfold progressHit
  by_cases hs : strTruthy link_id = true
  · simp [hs]
  · simp only [Bool.not_eq_true] at hs
    simp [hs]

/-- The item-list transformation of `updateScrapingItemProgress` is
idempotent under the identity-consistency proviso. -/
theorem progressItems_idem (link_id : Option String) (url : String)
    (p : ScrapingItemPatch) (items : List ScrapingItem)
    (h1 : strTruthy link_id = true → p.link_id = none ∨ p.link_id = link_id)
    (h2 : strTruthy link_id = false → p.url = none ∨ p.url = some url) :
    progressItems link_id url p (progressItems link_id url p items)
      = progressItems link_id url p items := by
  have hidem : ∀ x : ScrapingItem,
      (if progressHit link_id url (if progressHit link_id url x then
          mergeItemProgress x p else x) then
        mergeItemProgress (if progressHit link_id url x then
          mergeItemProgress x p else x) p
      else (if progressHit link_id url x then mergeItemProgress x p else x))
        = (if progressHit link_id url x then mergeItemProgress x p else x) := by
    intro x
    by_cases hx : progressHit link_id url x = true
    · simp only [if_pos hx, if_pos (progressHit_merge h1 h2 x hx),
        mergeItemProgress_idem]
    · simp only [if_neg hx]
  have hmapf : ∀ ls : List ScrapingItem,
      (ls.map (fun item => if progressHit link_id url item then
          mergeItemProgress item p else item)).map
        (fun item => if progressHit link_id url item then
          mergeItemProgress item p else item)
        = ls.map (fun item => if progressHit link_id url item then
          mergeItemProgress item p else item) := by
    intro ls
    rw [List.map_map]
    congr 1
    funext x
    exact hidem x
  unfold progressItems
  set f := fun item => if progressHit link_id url item then
    mergeItemProgress item p else item with hf
  set pr := fun item : ScrapingItem =>
    (strTruthy link_id && item.link_id == link_id) ||
      (!(strTruthy link_id) && item.url == url) with hpr
  have hprhit : ∀ x, pr x = progressHit link_id url x := fun x =>
    foundPred_eq_hit link_id url x
  by_cases hfound : (items.map f).any pr = true
  · rw [if_pos hfound]
    have hmap2 : (items.map f).map f = items.map f := hmapf items
    rw [hmap2, if_pos hfound]
  · rw [if_neg hfound]
    have hfnew : f (newProgressItem link_id url p) = newProgressItem link_id url p := by
      show (if progressHit link_id url (newProgressItem link_id url p) = true then
          mergeItemProgress (newProgressItem link_id url p) p
        else newProgressItem link_id url p) = newProgressItem link_id url p
      rw [if_pos (progressHit_newItem h1 h2), mergeItemProgress_newItem]
    have hmapext : ((items.map f) ++ [newProgressItem link_id url p]).map f
        = (items.map f) ++ [newProgressItem link_id url p] := by
      rw [List.map_append, hmapf items]
      simp only [List.map_cons, List.map_nil]
      rw [hfnew]
    have hfound2 : (((items.map f) ++ [newProgressItem link_id url p]).map f).any pr
        = true := by
      rw [hmapext, List.any_append]
      have : pr (newProgressItem link_id url p) = true := by
        rw [hprhit]
        exact progressHit_newItem h1 h2
      simp [List.any_cons, this]
    rw [if_pos hfound2, hmapext]

/-- `updateScrapingItemProgress` is idempotent under the proviso. -/
theorem updateScrapingItemProgress_idem (st : WorkflowState)
    (link_id : Option String) (url : String) (p : ScrapingItemPatch)
    (h1 : strTruthy link_id = true → p.link_id = none ∨ p.link_id = link_id)
    (h2 : strTruthy link_id = false → p.url = none ∨ p.url = some url) :
    updateScrapingItemProgress (updateScrapingItemProgress st link_id url p)
        link_id url p
      = updateScrapingItemProgress st link_id url p := by
  simp only [updateScrapingItemProgress]
  have hP := progressItems_idem link_id url p st.scrapingStatus.items h1 h2
  refine WorkflowState.ext rfl rfl rfl rfl rfl rfl rfl rfl rfl rfl rfl ?_ rfl rfl
    rfl rfl rfl rfl rfl
  refine ScrapingStatus.ext rfl rfl ?_ ?_ ?_ ?_ rfl rfl rfl <;> rw [hP]

/-- **C1 (amended)**: at a fixed merge timestamp, applying the same event
twice in succession equals applying it once for the merge-style projector
actions: `updateLiveGoal` (always), `addPhase3Step` (from any snapshot
whose phase-3 step ids are distinct — an invariant of all reachable
snapshots), and `updateScrapingItemProgress` (whenever the payload's
`link_id`/`url` fields, when present, agree with the event's identity
arguments, as they do for payloads derived from one `scraping_item.progress`
event). It fails for `appendStreamToken`, which appends the token and bumps
`tokenCount` on every application. -/
theorem projector_events_idempotent :
    (∀ (st : WorkflowState) (g : LiveGoalPatch) (now : String),
      updateLiveGoal (updateLiveGoal st g now) g now = updateLiveGoal st g now) ∧
    (∀ (st : WorkflowState) (s : SessionStep),
      (st.phase3Steps.map SessionStep.step_id).Nodup →
      addPhase3Step (addPhase3Step st s) s = addPhase3Step st s) ∧
    (∀ (st : WorkflowState) (link_id : Option String) (url : String)
        (p : ScrapingItemPatch),
      (strTruthy link_id = true → p.link_id = none ∨ p.link_id = link_id) →
      (strTruthy link_id = false → p.url = none ∨ p.url = some url) →
      updateScrapingItemProgress (updateScrapingItemProgress st link_id url p)
          link_id url p
        = updateScrapingItemProgress st link_id url p) :=
  ⟨updateLiveGoal_idem, addPhase3Step_idem, updateScrapingItemProgress_idem⟩

/-- Witness for C1 at concrete inputs. -/
theorem projector_events_idempotent_witness :
    (updateLiveGoal (updateLiveGoal initialState
        ⟨1, some "X", none, none, none, none, none⟩ "t")
        ⟨1, some "X", none, none, none, none, none⟩ "t"
      = updateLiveGoal initialState ⟨1, some "X", none, none, none, none, none⟩ "t") ∧
    (addPhase3Step (addPhase3Step initialState (mkStep 1 "i" "ts")) (mkStep 1 "i" "ts")
      = addPhase3Step initialState (mkStep 1 "i" "ts")) ∧
    (updateScrapingItemProgress (updateScrapingItemProgress initialState none "u"
        ScrapingItemPatch.empty) none "u" ScrapingItemPatch.empty
      = updateScrapingItemProgress initialState none "u" ScrapingItemPatch.empty) :=
  ⟨projector_events_idempotent.1 initialState ⟨1, some "X", none, none, none, none, none⟩ "t",
   projector_events_idempotent.2.1 initialState (mkStep 1 "i" "ts") (by decide),
   projector_events_idempotent.2.2 initialState none "u" ScrapingItemPatch.empty
     (by decide) (by decide)⟩

def c1DupState : WorkflowState :=
  { initialState with phase3Steps := [mkStep 1 "a" "", mkStep 1 "b" ""] }

def c1BadPatch : ScrapingItemPatch :=
  { ScrapingItemPatch.empty with url := some "v" }

/-- Counterexample to C1 as stated: `appendStreamToken` is never idempotent;
`addPhase3Step` fails from a snapshot with duplicate step ids; and
`updateScrapingItemProgress` fails when the payload's `url` contradicts the
event's url argument. -/
theorem projector_events_not_idempotent :
    (appendStreamToken (appendStreamToken initialState "s" "x" "t") "s" "x" "t"
      ≠ appendStreamToken initialState "s" "x" "t") ∧
    (addPhase3Step (addPhase3Step c1DupState (mkStep 2 "c" "")) (mkStep 2 "c" "")
      ≠ addPhase3Step c1DupState (mkStep 2 "c" "")) ∧
    (updateScrapingItemProgress (updateScrapingItemProgress initialState none "u"
        c1BadPatch) none "u" c1BadPatch
      ≠ updateScrapingItemProgress initialState none "u" c1BadPatch) := by
  refine ⟨fun h => ?_, fun h => ?_, fun h => ?_⟩
  · have h2 := congrArg
      (fun st => (st.researchAgentStatus.streams.buffers "s").map (fun b => b.raw)) h
    exact absurd h2 (by decide)
  · have h2 := congrArg (fun st => st.phase3Steps.length) h
    exact absurd h2 (by decide)
  · have h2 := congrArg (fun st => st.scrapingStatus.items.length) h
    exact absurd h2 (by decide)

/-! ### C2 -/

/-- Step lists with pairwise-distinct step ids. -/
def NodupSteps := { l : List SessionStep // (l.map SessionStep.step_id).Nodup }

/-- `addStepList` lifted to duplicate-free lists. -/
def addStepN (z : NodupSteps) (s : SessionStep) : NodupSteps :=
  ⟨addStepList z.1 s, addStepList_nodup s z.2⟩

theorem foldl_addStepN_val : ∀ (l : List SessionStep) (z : NodupSteps),
    (l.foldl addStepN z).1 = l.foldl addStepList z.1
  | [], _ => rfl
  | s :: l, z => by
    rw [List.foldl_cons, List.foldl_cons]
    exact foldl_addStepN_val l (addStepN z s)

theorem foldl_addPhase3Step_proj : ∀ (l : List SessionStep) (st : WorkflowState),
    (l.foldl addPhase3Step st).phase3Steps = l.foldl addStepList st.phase3Steps
  | [], _ => rfl
  | s :: l, st => by
    rw [List.foldl_cons, List.foldl_cons]
    exact foldl_addPhase3Step_proj l (addPhase3Step st s)

/-- **C2 (amended)**: full-snapshot order-independence fails (two events on
the same entity do not commute, and even `addPhase3Step` writes the
order-dependent `currentStepId`), but the `phase3Steps` collection is
order-independent: folding any two permutations of a multiset of
`addPhase3Step` events with pairwise-distinct step ids from the initial
state yields identical `phase3Steps`. -/
theorem phase3_fold_order_independent (l₁ l₂ : List SessionStep)
    (hp : l₁.Perm l₂)
    (hnd : l₁.Pairwise (fun a b => a.step_id ≠ b.step_id)) :
    (l₁.foldl addPhase3Step initialState).phase3Steps
      = (l₂.foldl addPhase3Step initialState).phase3Steps := by
  rw [foldl_addPhase3Step_proj, foldl_addPhase3Step_proj]
  have h0 : ((([] : List SessionStep)).map SessionStep.step_id).Nodup := by simp
  have hcomm : ∀ x ∈ l₁, ∀ y ∈ l₁, ∀ z : NodupSteps,
      addStepN (addStepN z x) y = addStepN (addStepN z y) x := by
    intro x hx y hy z
    by_cases hxy : x = y
    · subst hxy; rfl
    · have hne : x.step_id ≠ y.step_id :=
        List.Pairwise.forall (fun _ _ h => Ne.symm h) hnd hx hy hxy
      exact Subtype.ext (addStepList_comm z.2 hne)
  have hmain := List.Perm.foldl_eq' hp hcomm (⟨[], h0⟩ : NodupSteps)
  have h₁ := foldl_addStepN_val l₁ (⟨[], h0⟩ : NodupSteps)
  have h₂ := foldl_addStepN_val l₂ (⟨[], h0⟩ : NodupSteps)
  calc l₁.foldl addStepList initialState.phase3Steps
      = (l₁.foldl addStepN ⟨[], h0⟩).1 := h₁.symm
    _ = (l₂.foldl addStepN ⟨[], h0⟩).1 := congrArg Subtype.val hmain
    _ = l₂.foldl addStepList initialState.phase3Steps := h₂

/-- Witness for C2 on a two-event multiset in both orders. -/
theorem phase3_fold_order_independent_witness :
    ([mkStep 1 "a" "", mkStep 2 "b" ""].foldl addPhase3Step initialState).phase3Steps
      = ([mkStep 2 "b" "", mkStep 1 "a" ""].foldl addPhase3Step initialState).phase3Steps :=
  phase3_fold_order_independent _ _
    (List.Perm.swap (mkStep 2 "b" "") (mkStep 1 "a" "") []) (by decide)

def c2GoalA : LiveGoalPatch := ⟨1, some "A", none, none, none, none, none⟩

def c2GoalB : LiveGoalPatch := ⟨1, some "B", none, none, none, none, none⟩

/-- Counterexample to C2 as stated: two `goal.update` events for the same
goal id applied in the two orders yield different snapshots (last writer
wins on `goal_text`). -/
theorem projector_fold_order_dependent :
    updateLiveGoal (updateLiveGoal initialState c2GoalA "t") c2GoalB "t"
      ≠ updateLiveGoal (updateLiveGoal initialState c2GoalB "t") c2GoalA "t" := by
  intro h
  have h2 := congrArg
    (fun st => (st.researchAgentStatus.liveGoals 1).map (fun lg => lg.goal_text)) h
  exact absurd h2 (by decide)

/-! ### C5 -/

/-- The two mutations of the Phase-3 collection named by the claim. -/
inductive Phase3Op where
  | add (s : SessionStep)
  | setAll (steps : List SessionStep) (nextStepId : Option Nat)
deriving DecidableEq

def applyPhase3Op (st : WorkflowState) (op : Phase3Op) : WorkflowState :=
  match op with
  | Phase3Op.add s => addPhase3Step st s
  | Phase3Op.setAll steps n => setPhase3Steps st steps n

/-- The strict-sortedness (and hence uniqueness) invariant is preserved by
any sequence of the two mutations whose `setPhase3Steps` payloads are
duplicate-free. -/
theorem fold_phase3_strict : ∀ (ops : List Phase3Op) (st : WorkflowState),
    List.Pairwise stepLT st.phase3Steps →
    (∀ steps n, Phase3Op.setAll steps n ∈ ops →
      ((steps.map SessionStep.step_id)).Nodup) →
    List.Pairwise stepLT ((ops.foldl applyPhase3Op st).phase3Steps)
  | [], _, hst, _ => hst
  | op :: ops, st, hst, hset => by
    rw [List.foldl_cons]
    refine fold_phase3_strict ops _ ?_
      (fun steps n hmem => hset steps n (List.mem_cons_of_mem op hmem))
    cases op with
    | add s => exact addStepList_strict s (nodup_of_strict hst)
    | setAll steps n =>
      have hnd := hset steps n (List.mem_cons_self _ _)
      have hnd' : ((sortSteps steps).map SessionStep.step_id).Nodup :=
        ((sortSteps_perm steps).map SessionStep.step_id).nodup_iff.mpr hnd
      exact strict_of_sorted_nodup (sortSteps_sorted steps) hnd'

/-- Last event wins: after `addPhase3Step`, the unique entry with the
incoming step id is the incoming step. -/
theorem addStepList_filter_eq {l : List SessionStep} (s : SessionStep)
    (hn : (l.map SessionStep.step_id).Nodup) :
    (addStepList l s).filter (fun t => t.step_id == s.step_id) = [s] := by
  have hperm := (addStepList_perm s hn).filter (fun t => t.step_id == s.step_id)
  refine List.Perm.eq_singleton (hperm.trans ?_)
  rw [List.filter_cons]
  simp [List.filter_filter]

/-- **C5 (amended)**: after every sequence of `addPhase3Step` and
`setPhase3Steps` applications in which each `setPhase3Steps` payload has
pairwise-distinct step ids, the collection is strictly sorted by step id
(so at most one entry per step id, ascending, independent of arrival
order); for a repeated `addPhase3Step` id the most recently applied
payload is the one kept. `setPhase3Steps` itself sorts but does not
deduplicate a payload that already contains a repeated step id. -/
theorem phase3Steps_unique_sorted (ops : List Phase3Op)
    (hset : ∀ steps n, Phase3Op.setAll steps n ∈ ops →
      ((steps.map SessionStep.step_id)).Nodup) :
    List.Pairwise stepLT ((ops.foldl applyPhase3Op initialState).phase3Steps) ∧
    (∀ (st : WorkflowState) (s : SessionStep),
      (st.phase3Steps.map SessionStep.step_id).Nodup →
      (addPhase3Step st s).phase3Steps.filter (fun t => t.step_id == s.step_id) = [s]) :=
  ⟨fold_phase3_strict ops initialState (by simp [initialState]) hset,
   fun _ s hn => addStepList_filter_eq s hn⟩

def c5Ops : List Phase3Op :=
  [Phase3Op.setAll [mkStep 2 "b" "", mkStep 1 "a" ""] none,
   Phase3Op.add (mkStep 3 "c" "")]

/-- Witness for C5 at a concrete op sequence. -/
theorem phase3Steps_unique_sorted_witness :
    List.Pairwise stepLT ((c5Ops.foldl applyPhase3Op initialState).phase3Steps) ∧
    (addPhase3Step initialState (mkStep 1 "a" "")).phase3Steps.filter
      (fun t => t.step_id == (mkStep 1 "a" "").step_id) = [mkStep 1 "a" ""] := by
  have hset : ∀ steps n, Phase3Op.setAll steps n ∈ c5Ops →
      ((steps.map SessionStep.step_id)).Nodup := by
    intro steps n hmem
    simp only [c5Ops, List.mem_cons, List.not_mem_nil, or_false] at hmem
    rcases hmem with hmem | hmem
    · obtain ⟨h1, h2⟩ := Phase3Op.setAll.inj hmem
      subst h1
      decide
    · exact absurd hmem (by simp)
  exact ⟨(phase3Steps_unique_sorted c5Ops hset).1,
    (phase3Steps_unique_sorted c5Ops hset).2 initialState (mkStep 1 "a" "") (by decide)⟩

/-- Counterexample to C5 as stated: a `setPhase3Steps` payload with a
repeated step id is sorted but not deduplicated, leaving two entries with
the same step id. -/
theorem setPhase3Steps_keeps_duplicates :
    ((setPhase3Steps initialState [mkStep 1 "a" "", mkStep 1 "b" ""] none).phase3Steps.map
      SessionStep.step_id) = [1, 1] := by
  decide

/-! ### C9 -/

theorem upsertList_length (l : List ConversationMessage) (m : ConversationMessage) :
    (upsertList l m).length ≤ 200 := by
  unfold upsertList
  by_cases hlen : (List.insertionSort msgLE
      ((l.filter (fun item => !(item.id == m.id))) ++ [m])).length > 200
  · rw [if_pos hlen, List.length_drop]
    omega
  · rw [if_neg hlen]
    omega

theorem upsertList_sorted (l : List ConversationMessage) (m : ConversationMessage) :
    List.Sorted msgLE (upsertList l m) := by
  unfold upsertList
  by_cases hlen : (List.insertionSort msgLE
      ((l.filter (fun item => !(item.id == m.id))) ++ [m])).length > 200
  · rw [if_pos hlen]
    exact List.Pairwise.sublist (List.drop_sublist _ _) (List.sorted_insertionSort _ _)
  · rw [if_neg hlen]
    exact List.sorted_insertionSort _ _

theorem upsertList_nodup (l : List ConversationMessage) (m : ConversationMessage)
    (hn : (l.map ConversationMessage.id).Nodup) :
    ((upsertList l m).map ConversationMessage.id).Nodup := by
  have hfil : ((l.filter (fun item => !(item.id == m.id))).map
      ConversationMessage.id).Nodup :=
    ((List.filter_sublist l).map ConversationMessage.id).nodup hn
  have hnotmem : m.id ∉ (l.filter (fun item => !(item.id == m.id))).map
      ConversationMessage.id := by
    intro hmem
    rcases List.mem_map.mp hmem with ⟨x, hx, hid⟩
    have h2 := List.of_mem_filter hx
    simp only [Bool.not_eq_true', beq_eq_false_iff_ne, ne_eq] at h2
    exact h2 hid
  have hmerged : ((List.insertionSort msgLE
      ((l.filter (fun item => !(item.id == m.id))) ++ [m])).map
      ConversationMessage.id).Nodup := by
    refine ((List.perm_insertionSort msgLE _).map ConversationMessage.id).nodup_iff.mpr ?_
    rw [List.map_append]
    refine List.nodup_append.mpr ⟨hfil, List.nodup_singleton _, ?_⟩
    intro a ha hb
    rcases List.mem_singleton.mp hb with rfl
    exact hnotmem ha
  unfold upsertList
  by_cases hlen : (List.insertionSort msgLE
      ((l.filter (fun item => !(item.id == m.id))) ++ [m])).length > 200
  · rw [if_pos hlen]
    exact ((List.drop_sublist _ _).map ConversationMessage.id).nodup hmerged
  · rw [if_neg hlen]
    exact hmerged

theorem upsertList_eviction (l : List ConversationMessage) (m : ConversationMessage) :
    ∃ dropped, dropped ++ upsertList l m
        = List.insertionSort msgLE
          ((l.filter (fun item => !(item.id == m.id))) ++ [m]) ∧
      ∀ x ∈ dropped, ∀ y ∈ upsertList l m, x.timestamp ≤ y.timestamp := by
  unfold upsertList
  by_cases hlen : (List.insertionSort msgLE
      ((l.filter (fun item => !(item.id == m.id))) ++ [m])).length > 200
  · rw [if_pos hlen]
    set merged := List.insertionSort msgLE
      ((l.filter (fun item => !(item.id == m.id))) ++ [m]) with hm
    refine ⟨merged.take (merged.length - 200), List.take_append_drop _ _, ?_⟩
    have h2 : List.Pairwise msgLE
        (merged.take (merged.length - 200) ++ merged.drop (merged.length - 200)) := by
      rw [List.take_append_drop]
      exact List.sorted_insertionSort _ _
    exact fun x hx y hy => (List.pairwise_append.mp h2).2.2 x hx y hy
  · rw [if_neg hlen]
    exact ⟨[], rfl, by simp⟩

/-- The distinct-ids invariant of the conversation log holds along any fold
of upserts from the initial state. -/
theorem fold_upsert_nodup : ∀ (ms : List ConversationMessage) (st : WorkflowState),
    ((st.researchAgentStatus.conversationMessages.map ConversationMessage.id).Nodup) →
    (((ms.foldl upsertConversationMessage st).researchAgentStatus.conversationMessages.map
      ConversationMessage.id).Nodup)
  | [], _, hn => hn
  | m :: ms, st, hn => by
    rw [List.foldl_cons]
    exact fold_upsert_nodup ms _ (upsertList_nodup _ m hn)

/-- **C9**: after every `upsertConversationMessage` application (along any
history of upserts from the initial state) the conversation collection has
at most 200 entries, at most one entry per message id, is sorted by
ascending timestamp, and when the cap is exceeded exactly the
oldest-timestamped entries are evicted (the kept entries are a suffix of
the timestamp-sorted merge and every evicted timestamp is ≤ every kept
timestamp). -/
theorem conversation_messages_invariants (ms : List ConversationMessage)
    (m : ConversationMessage) :
    (let st := ms.foldl upsertConversationMessage initialState
     let r := (upsertConversationMessage st m).researchAgentStatus.conversationMessages
     r.length ≤ 200 ∧ (r.map ConversationMessage.id).Nodup ∧ List.Sorted msgLE r ∧
       ∃ dropped,
         dropped ++ r = List.insertionSort msgLE
           ((st.researchAgentStatus.conversationMessages.filter
             (fun item => !(item.id == m.id))) ++ [m]) ∧
         ∀ x ∈ dropped, ∀ y ∈ r, x.timestamp ≤ y.timestamp) := by
  have hn := fold_upsert_nodup ms initialState (by simp [initialState])
  exact ⟨upsertList_length _ _, upsertList_nodup _ _ hn, upsertList_sorted _ _,
    upsertList_eviction _ _⟩

/-! ### C7 -/

theorem setGoals_phase (st : WorkflowState) (gs : Option (List GoalEntry))
    (now : String) : (setGoals st gs now).researchAgentStatus.phase
      = st.researchAgentStatus.phase := rfl

theorem setPlan_phase (st : WorkflowState) (pl : Option (List PlanEntry))
    (now : String) : (setPlan st pl now).researchAgentStatus.phase
      = st.researchAgentStatus.phase := rfl

theorem setSynthesizedGoal_phase (st : WorkflowState) (g : Option SynthesizedGoal) :
    (setSynthesizedGoal st g).researchAgentStatus.phase
      = st.researchAgentStatus.phase := rfl

theorem setPhase3Steps_phase (st : WorkflowState) (steps : List SessionStep)
    (n : Option Nat) : (setPhase3Steps st steps n).researchAgentStatus.phase
      = st.researchAgentStatus.phase := rfl

/-- The hydrator's research phase is the plan/goals inference rule. -/
theorem hydrate_phase (st : WorkflowState) (d : HistorySessionDetail) (now : String) :
    (hydrateWorkflowState st d now).researchAgentStatus.phase
      = (if (effPlan d).length > 0 then "2"
         else if (effGoals d).length > 0 then "1" else "0.5") := by
  cases hs : d.scraping_status <;> cases hp : d.phase3 <;>
    simp [hydrateWorkflowState, hs, hp,
      apply_ite (fun s : WorkflowState => s.researchAgentStatus.phase),
      setGoals_phase, setPlan_phase, setSynthesizedGoal_phase, setPhase3Steps_phase,
      updateResearchAgentStatus, researchPhaseOf]

/-- When the snapshot carries a truthy explicit phase, or the session is
completed, the resume and view fallbacks agree. -/
theorem resolved_agree (d : HistorySessionDetail)
    (h : strTruthy d.current_phase = true ∨ d.status = "completed") :
    resolvedResumePhase d = resolvedViewPhase d := by
  unfold resolvedResumePhase resolvedViewPhase jsOrStr
  rcases hc : d.current_phase with _ | s
  · rcases h with h | h
    · rw [hc] at h
      simp [strTruthy] at h
    · simp [h]
  · by_cases hs : s = ""
    · rcases h with h | h
      · rw [hc] at h
        simp [strTruthy, hs] at h
      · simp [hs, h]
    · simp [hs]

/-- **C7 (amended)**: when hydrating a persisted snapshot the research phase
is inferred as `'2'` exactly when the effective plan is non-empty, else
`'1'` exactly when the effective goals are non-empty, else `'0.5'`; the
resume and view paths invoke the same snapshot-building procedure
(`hydrateWorkflowState`) and their final snapshots agree except possibly in
the top-level `currentPhase`: when the snapshot carries a truthy explicit
phase marker or the session is completed the two phases also coincide, but
when the marker is absent on an uncompleted session the resume path falls
back to `'research'`/`'scraping'` by `data_loaded` while the view path
falls back to `'research'` — so the two paths differ in more than whether
a resume command is issued. -/
theorem hydrator_phase_inference (st : WorkflowState) (d : HistorySessionDetail)
    (now : String) :
    ((hydrateWorkflowState st d now).researchAgentStatus.phase
      = (if (effPlan d).length > 0 then "2"
         else if (effGoals d).length > 0 then "1" else "0.5")) ∧
    (resumeStoreState st d now
      = setCurrentPhase (viewStoreState st d now) (resolvedResumePhase d)) ∧
    ((strTruthy d.current_phase = true ∨ d.status = "completed") →
      resolvedResumePhase d = resolvedViewPhase d) :=
  ⟨hydrate_phase st d now, rfl, resolved_agree d⟩

def c7Detail : HistorySessionDetail :=
  { batch_id := "b", session_id := none, created_at := "", status := "completed",
    topic := none, url_count := none, current_phase := none, metadata := none,
    scraping_status := none, phase3 := none, resume_required := none,
    data_loaded := none }

/-- Witness for C7 at a concrete completed-session detail. -/
theorem hydrator_phase_inference_witness :
    resolvedResumePhase c7Detail = resolvedViewPhase c7Detail :=
  (hydrator_phase_inference initialState c7Detail "t").2.2 (Or.inr rfl)

def c7Active : HistorySessionDetail := { c7Detail with status := "in-progress" }

/-- Counterexample to C7 as stated: for an uncompleted session without an
explicit phase marker the resume-path snapshot and the view-path snapshot
differ (currentPhase `'scraping'` vs `'research'`), so the two paths do
not differ only in whether a resume command is issued. -/
theorem resume_view_snapshots_differ :
    resumeStoreState initialState c7Active "t"
      ≠ viewStoreState initialState c7Active "t" := by
  intro h
  have h2 := congrArg (fun s => s.currentPhase) h
  exact absurd h2 (by decide)

end DeepResearch
